import Mathlib

/-!
# Single-block row-major matrix: layout arithmetic and views

A shallow embedding of the matrix allocator of `matrix.c`, `matrix_uptr_v2.cpp`,
`matrix_uptr_v4.cpp` and `matrix_uptr_v5.cpp`.

Conventions of the embedding.

* A `size_t` value is a natural number; the largest one, `SIZE_MAX`
  (`std::numeric_limits<size_t>::max()`), is a parameter of the target.  A `size_t`
  product or sum is reduced modulo `SIZE_MAX + 1` (`wrap`).
* Code that runs to its end is `Except.ok result`; `Except.error` is a run that does not:
  a division or remainder by zero (undefined behaviour) or a failed `assert`.
* A checked helper returning `bool` and writing through `out` is a `Checked`:
  `overflow` when it returns `true` (and leaves `out` alone), `value out` when it
  returns `false`.
* Addresses are natural numbers, `0` is the null pointer.  The heap is passed explicitly.
-/

namespace MatrixAlloc

/-! ## Target and element type -/

/-- The constants the sources take from the compilation target. -/
structure Target where
  /-- Value of `SIZE_MAX`, `std::numeric_limits<size_t>::max()` -/
  SIZE_MAX : Nat
  /-- Value of `sizeof (T*)` -/
  ptr_size : Nat
deriving Repr

/-- What the code uses of the element type `T`. -/
structure ElemType where
  /-- Value of `sizeof (T)` -/
  size : Nat
  /-- Value of `alignof (T)` -/
  align : Nat
deriving Repr

/-- A 64-bit target with 8-byte pointers. -/
def lp64 : Target := ⟨2 ^ 64 - 1, 8⟩

/-- Type `int` on the usual targets: four bytes, aligned to four. -/
def int32 : ElemType := ⟨4, 4⟩

/-- Type `float` on the usual targets: four bytes, aligned to four. -/
def float32 : ElemType := ⟨4, 4⟩

/-- An element type with an extended alignment, such as `struct alignas (32) V` holding
four `double`. -/
def aligned32 : ElemType := ⟨32, 32⟩

/-! ## Machine arithmetic and faults -/

/-- Ways in which a run does not reach its end. -/
inductive Fault where
  /-- a `/` or `%` with a zero right operand -/
  | division_by_zero : Fault
  /-- an `assert` whose condition is false -/
  | assertion_failed : Fault
  /-- a call of `free` on an address that is not a live block -/
  | invalid_free : Fault
deriving DecidableEq, Repr

deriving instance DecidableEq for Except

/-- Reduction of an exact value to `size_t`. -/
def wrap (SIZE_MAX x : Nat) : Nat := x % (SIZE_MAX + 1)

/-- The quotient `a / b` on `size_t`. -/
def size_div (a b : Nat) : Except Fault Nat :=
  if b = 0 then Except.error Fault.division_by_zero else Except.ok (a / b)

/-- The remainder `a % b` on `size_t`. -/
def size_mod (a b : Nat) : Except Fault Nat :=
  if b = 0 then Except.error Fault.division_by_zero else Except.ok (a % b)

/-- Outcome of a checked helper (`bool` result and `out` parameter). -/
inductive Checked where
  /-- returned `true`, `out` not written -/
  | overflow : Checked
  /-- returned `false`, `out` written -/
  | value (out : Nat) : Checked
deriving DecidableEq, Repr

/-! ## Checked arithmetic -/

/-- The function `mul_overflow (a, b, out)`: lines 13-23 of `matrix_uptr_v5.cpp` and of
`matrix_uptr_v2.cpp`, lines 14-24 of `matrix_uptr_v4.cpp` (the same text). -/
def mul_overflow (SIZE_MAX a b : Nat) : Except Fault Checked :=
  if a = 0 ∨ b = 0 then Except.ok (Checked.value 0)
  else
    match size_div SIZE_MAX b with
    | Except.error e => Except.error e
    | Except.ok q =>
      if a > q then Except.ok Checked.overflow
      else Except.ok (Checked.value (wrap SIZE_MAX (a * b)))

/-- The function `add_overflow (a, b, out)`: lines 24-29 of `matrix_uptr_v5.cpp` and of
`matrix_uptr_v2.cpp`, lines 25-30 of `matrix_uptr_v4.cpp` (the same text).
`SIZE_MAX - b` is the exact difference because `b` is a `size_t`. -/
def add_overflow (SIZE_MAX a b : Nat) : Except Fault Checked :=
  if a > SIZE_MAX - b then Except.ok Checked.overflow
  else Except.ok (Checked.value (wrap SIZE_MAX (a + b)))

/-- The function `mul_overflow_size (a, b, out)`, lines 6-16 of `matrix.c`. -/
def mul_overflow_size (SIZE_MAX a b : Nat) : Except Fault Checked :=
  if a = 0 ∨ b = 0 then Except.ok (Checked.value 0)
  else
    match size_div SIZE_MAX b with
    | Except.error e => Except.error e
    | Except.ok q =>
      if a > q then Except.ok Checked.overflow
      else Except.ok (Checked.value (wrap SIZE_MAX (a * b)))

/-- The function `add_overflow_size (a, b, out)`, lines 18-23 of `matrix.c`. -/
def add_overflow_size (SIZE_MAX a b : Nat) : Except Fault Checked :=
  if a > SIZE_MAX - b then Except.ok Checked.overflow
  else Except.ok (Checked.value (wrap SIZE_MAX (a + b)))

/-! ## Heap -/

/-- The part of the machine state the allocator touches.  `α` is the type of the values
an element can hold. -/
structure Heap (α : Type) where
  /-- every size passed to `malloc` so far, oldest first -/
  requests : List Nat
  /-- blocks handed out by `malloc` and not freed: address and size -/
  live : List (Nat × Nat)
  /-- the `T*` stored at a byte address -/
  ptr_at : Nat → Nat
  /-- the `T` stored at a byte address -/
  elem_at : Nat → α

/-- A heap on which nothing has happened: every pointer slot null, every element `v`. -/
def Heap.empty {α : Type} (v : α) : Heap α := ⟨[], [], fun _ => 0, fun _ => v⟩

/-- The call `malloc (size)`: the request is recorded; `answer` is the allocator's reply, `0` when it
refuses. -/
def Heap.malloc {α : Type} (heap : Heap α) (answer : Nat → Nat) (size : Nat) : Nat × Heap α :=
  (answer size,
   ⟨heap.requests ++ [size],
    if answer size = 0 then heap.live else (answer size, size) :: heap.live,
    heap.ptr_at, heap.elem_at⟩)

/-- The store `*(T**) addr = p`. -/
def Heap.store_ptr {α : Type} (heap : Heap α) (addr p : Nat) : Heap α :=
  ⟨heap.requests, heap.live, fun a => if a = addr then p else heap.ptr_at a, heap.elem_at⟩

/-- The store `*(T*) addr = v`. -/
def Heap.store_elem {α : Type} (heap : Heap α) (addr : Nat) (v : α) : Heap α :=
  ⟨heap.requests, heap.live, heap.ptr_at, fun a => if a = addr then v else heap.elem_at a⟩

/-- The type `std::unique_ptr<T*, decltype (&std::free)>` (`RowTableUPtr<T>`,
`MallocUPtrRows<T>`): the stored pointer; the deleter is always `std::free`. -/
structure unique_ptr where
  /-- what `get ()` returns -/
  get : Nat
deriving DecidableEq, Repr

/-- The sizes `make_matrix` and `new_matrix` have computed when they call `malloc`. -/
structure Layout where
  /-- the product `rows * sizeof (T*)` -/
  header_size : Nat
  /-- the product `rows * cols` -/
  elems : Nat
  /-- the product `rows * cols * sizeof (T)` -/
  data_size : Nat
  /-- bytes between the row table and the data -/
  padding : Nat
  /-- the sum `header_size + padding` -/
  header_pad : Nat
  /-- the argument of `malloc` -/
  total : Nat
deriving DecidableEq, Repr

/-- The loop `for (size_t i = 0; i < rows; ++i) table[i] = data + i * cols;` with `table`
at address `raw`: `i * cols` is a `size_t` product, `data + n` advances by `n` elements. -/
def fill_rows {α : Type} (tgt : Target) (T : ElemType) (raw data rows cols : Nat)
    (heap : Heap α) : Heap α :=
  (List.range rows).foldl
    (fun h i => h.store_ptr (raw + i * tgt.ptr_size)
      (data + wrap tgt.SIZE_MAX (i * cols) * T.size))
    heap

/-- Address of `table[i][j]` for the row table at `table`. -/
def elem_addr {α : Type} (tgt : Target) (T : ElemType) (heap : Heap α) (table i j : Nat) : Nat :=
  heap.ptr_at (table + i * tgt.ptr_size) + j * T.size

/-- Value of `mat.get ()[i][j]`. -/
def row_read {α : Type} (tgt : Target) (T : ElemType) (heap : Heap α) (mat : unique_ptr)
    (i j : Nat) : α :=
  heap.elem_at (elem_addr tgt T heap mat.get i j)

/-! ## `matrix_uptr_v5.cpp` -/

namespace V5

/-- Lines 44-46 of `make_matrix`: `mis = header_size % align;
padding = mis ? (align - mis) : 0`. -/
def padding (header_size align : Nat) : Except Fault Nat :=
  match size_mod header_size align with
  | Except.error e => Except.error e
  | Except.ok mis => Except.ok (if mis ≠ 0 then align - mis else 0)

/-- Lines 34-50 of `make_matrix`: everything before the call of `malloc`.  `none` is a
`return {nullptr, &std::free}`. -/
def layout (tgt : Target) (T : ElemType) (rows cols : Nat) : Except Fault (Option Layout) :=
  if rows = 0 ∨ cols = 0 then Except.ok none
  else
    match mul_overflow tgt.SIZE_MAX rows tgt.ptr_size with
    | Except.error e => Except.error e
    | Except.ok Checked.overflow => Except.ok none
    | Except.ok (Checked.value header_size) =>
    match mul_overflow tgt.SIZE_MAX rows cols with
    | Except.error e => Except.error e
    | Except.ok Checked.overflow => Except.ok none
    | Except.ok (Checked.value elems) =>
    match mul_overflow tgt.SIZE_MAX elems T.size with
    | Except.error e => Except.error e
    | Except.ok Checked.overflow => Except.ok none
    | Except.ok (Checked.value data_size) =>
    match padding header_size T.align with
    | Except.error e => Except.error e
    | Except.ok padding =>
    match add_overflow tgt.SIZE_MAX header_size padding with
    | Except.error e => Except.error e
    | Except.ok Checked.overflow => Except.ok none
    | Except.ok (Checked.value header_pad) =>
    match add_overflow tgt.SIZE_MAX header_pad data_size with
    | Except.error e => Except.error e
    | Except.ok Checked.overflow => Except.ok none
    | Except.ok (Checked.value total) =>
      Except.ok (some ⟨header_size, elems, data_size, padding, header_pad, total⟩)

/-- The function `make_matrix<T> (rows, cols)`, lines 31-63: the returned handle and the
heap it leaves. -/
def make_matrix {α : Type} (tgt : Target) (T : ElemType) (answer : Nat → Nat)
    (rows cols : Nat) (heap : Heap α) : Except Fault (unique_ptr × Heap α) :=
  match layout tgt T rows cols with
  | Except.error e => Except.error e
  | Except.ok none => Except.ok (⟨0⟩, heap)
  | Except.ok (some L) =>
    match heap.malloc answer L.total with
    | (raw, heap1) =>
      if raw = 0 then Except.ok (⟨0⟩, heap1)
      else Except.ok (⟨raw⟩, fill_rows tgt T raw (raw + L.header_pad) rows cols heap1)

/-- A `std::span<T>`: `data ()` and `size ()`. -/
structure Span where
  /-- address of the first element -/
  data : Nat
  /-- number of elements -/
  size : Nat
deriving DecidableEq, Repr

/-- Value of `s[k]` (`std::span::operator[]`, no bounds check). -/
def Span.index {α : Type} (s : Span) (T : ElemType) (heap : Heap α) (k : Nat) : α :=
  heap.elem_at (s.data + k * T.size)

/-- The function `matriz_span (rows, r, c)`, lines 66-70. -/
def matriz_span {α : Type} (tgt : Target) (heap : Heap α) (rows : unique_ptr) (r c : Nat) :
    Span :=
  if rows.get ≠ 0 then ⟨heap.ptr_at (rows.get + 0 * tgt.ptr_size), wrap tgt.SIZE_MAX (r * c)⟩
  else ⟨0, 0⟩

/-- The function `matriz_cspan (rows, r, c)`, lines 71-75. -/
def matriz_cspan {α : Type} (tgt : Target) (heap : Heap α) (rows : unique_ptr) (r c : Nat) :
    Span :=
  if rows.get ≠ 0 then ⟨heap.ptr_at (rows.get + 0 * tgt.ptr_size), wrap tgt.SIZE_MAX (r * c)⟩
  else ⟨0, 0⟩

/-- The function `ij_to_k (i, j, cols)`, lines 78-81. -/
def ij_to_k (SIZE_MAX i j cols : Nat) : Nat :=
  wrap SIZE_MAX (wrap SIZE_MAX (i * cols) + j)

/-- The function `k_to_ij (k, cols)`, lines 82-85. -/
def k_to_ij (k cols : Nat) : Except Fault (Nat × Nat) :=
  match size_div k cols with
  | Except.error e => Except.error e
  | Except.ok i =>
    match size_mod k cols with
    | Except.error e => Except.error e
    | Except.ok j => Except.ok (i, j)

end V5

/-! ## `matrix_uptr_v4.cpp` -/

namespace V4

/-- Lines 44-46 of `make_matrix`: `mis = header_size % align;
padding = mis ? (align - mis) : 0`. -/
def padding (header_size align : Nat) : Except Fault Nat :=
  match size_mod header_size align with
  | Except.error e => Except.error e
  | Except.ok mis => Except.ok (if mis ≠ 0 then align - mis else 0)

/-- Lines 35-50 of `make_matrix`: everything before the call of `malloc`.  `none` is a
`return {nullptr, &std::free}`. -/
def layout (tgt : Target) (T : ElemType) (rows cols : Nat) : Except Fault (Option Layout) :=
  if rows = 0 ∨ cols = 0 then Except.ok none
  else
    match mul_overflow tgt.SIZE_MAX rows tgt.ptr_size with
    | Except.error e => Except.error e
    | Except.ok Checked.overflow => Except.ok none
    | Except.ok (Checked.value header_size) =>
    match mul_overflow tgt.SIZE_MAX rows cols with
    | Except.error e => Except.error e
    | Except.ok Checked.overflow => Except.ok none
    | Except.ok (Checked.value elems) =>
    match mul_overflow tgt.SIZE_MAX elems T.size with
    | Except.error e => Except.error e
    | Except.ok Checked.overflow => Except.ok none
    | Except.ok (Checked.value data_size) =>
    match padding header_size T.align with
    | Except.error e => Except.error e
    | Except.ok padding =>
    match add_overflow tgt.SIZE_MAX header_size padding with
    | Except.error e => Except.error e
    | Except.ok Checked.overflow => Except.ok none
    | Except.ok (Checked.value header_pad) =>
    match add_overflow tgt.SIZE_MAX header_pad data_size with
    | Except.error e => Except.error e
    | Except.ok Checked.overflow => Except.ok none
    | Except.ok (Checked.value total) =>
      Except.ok (some ⟨header_size, elems, data_size, padding, header_pad, total⟩)

/-- The function `make_matrix<T> (rows, cols)`, lines 32-62: the returned handle and the
heap it leaves. -/
def make_matrix {α : Type} (tgt : Target) (T : ElemType) (answer : Nat → Nat)
    (rows cols : Nat) (heap : Heap α) : Except Fault (unique_ptr × Heap α) :=
  match layout tgt T rows cols with
  | Except.error e => Except.error e
  | Except.ok none => Except.ok (⟨0⟩, heap)
  | Except.ok (some L) =>
    match heap.malloc answer L.total with
    | (raw, heap1) =>
      if raw = 0 then Except.ok (⟨0⟩, heap1)
      else Except.ok (⟨raw⟩, fill_rows tgt T raw (raw + L.header_pad) rows cols heap1)

/-- The struct `FlatRange<T>`, lines 67-93. -/
structure FlatRange where
  /-- address of the first element, null by default -/
  first : Nat
  /-- number of elements, zero by default -/
  n : Nat
deriving DecidableEq, Repr

/-- The member `size ()`. -/
def FlatRange.size (f : FlatRange) : Nat := f.n

/-- Value of `f[i]` (`operator[]`, `first[i]`). -/
def FlatRange.index {α : Type} (f : FlatRange) (T : ElemType) (heap : Heap α) (i : Nat) : α :=
  heap.elem_at (f.first + i * T.size)

/-- The function `ij_to_k (i, j, cols)`, lines 96-99. -/
def ij_to_k (SIZE_MAX i j cols : Nat) : Nat :=
  wrap SIZE_MAX (wrap SIZE_MAX (i * cols) + j)

/-- The function `k_to_ij (k, cols, i, j)`, lines 100-104: the values left in `i` and `j`. -/
def k_to_ij (k cols : Nat) : Except Fault (Nat × Nat) :=
  match size_div k cols with
  | Except.error e => Except.error e
  | Except.ok i =>
    match size_mod k cols with
    | Except.error e => Except.error e
    | Except.ok j => Except.ok (i, j)

/-- The function `matriz_as_range (rows, r, c)`, lines 107-113. -/
def matriz_as_range {α : Type} (tgt : Target) (heap : Heap α) (rows : unique_ptr) (r c : Nat) :
    Except Fault FlatRange :=
  if rows.get = 0 then Except.ok ⟨0, 0⟩
  else if heap.ptr_at (rows.get + 0 * tgt.ptr_size) = 0 then
    Except.error Fault.assertion_failed
  else Except.ok ⟨heap.ptr_at (rows.get + 0 * tgt.ptr_size), wrap tgt.SIZE_MAX (r * c)⟩

/-- The function `matriz_as_crange (rows, r, c)`, lines 116-122. -/
def matriz_as_crange {α : Type} (tgt : Target) (heap : Heap α) (rows : unique_ptr) (r c : Nat) :
    Except Fault FlatRange :=
  if rows.get = 0 then Except.ok ⟨0, 0⟩
  else if heap.ptr_at (rows.get + 0 * tgt.ptr_size) = 0 then
    Except.error Fault.assertion_failed
  else Except.ok ⟨heap.ptr_at (rows.get + 0 * tgt.ptr_size), wrap tgt.SIZE_MAX (r * c)⟩

end V4

/-! ## `matrix_uptr_v2.cpp` -/

namespace V2

/-- Lines 47-53 of `make_matrix`: `padding = 0; if (align > 1) { mis = header_size % align;
if (mis) padding = align - mis; }`. -/
def padding (header_size align : Nat) : Except Fault Nat :=
  if align > 1 then
    match size_mod header_size align with
    | Except.error e => Except.error e
    | Except.ok mis => Except.ok (if mis ≠ 0 then align - mis else 0)
  else Except.ok 0

/-- Lines 34-58 of `make_matrix`: everything before the call of `malloc`.  `none` is a
`return {nullptr, &std::free}`. -/
def layout (tgt : Target) (T : ElemType) (rows cols : Nat) : Except Fault (Option Layout) :=
  if rows = 0 ∨ cols = 0 then Except.ok none
  else
    match mul_overflow tgt.SIZE_MAX rows tgt.ptr_size with
    | Except.error e => Except.error e
    | Except.ok Checked.overflow => Except.ok none
    | Except.ok (Checked.value header_size) =>
    match mul_overflow tgt.SIZE_MAX rows cols with
    | Except.error e => Except.error e
    | Except.ok Checked.overflow => Except.ok none
    | Except.ok (Checked.value elems) =>
    match mul_overflow tgt.SIZE_MAX elems T.size with
    | Except.error e => Except.error e
    | Except.ok Checked.overflow => Except.ok none
    | Except.ok (Checked.value data_size) =>
    match padding header_size T.align with
    | Except.error e => Except.error e
    | Except.ok padding =>
    match add_overflow tgt.SIZE_MAX header_size padding with
    | Except.error e => Except.error e
    | Except.ok Checked.overflow => Except.ok none
    | Except.ok (Checked.value header_pad) =>
    match add_overflow tgt.SIZE_MAX header_pad data_size with
    | Except.error e => Except.error e
    | Except.ok Checked.overflow => Except.ok none
    | Except.ok (Checked.value total) =>
      Except.ok (some ⟨header_size, elems, data_size, padding, header_pad, total⟩)

/-- The function `make_matrix<T> (rows, cols)`, lines 31-74: the returned handle and the
heap it leaves. -/
def make_matrix {α : Type} (tgt : Target) (T : ElemType) (answer : Nat → Nat)
    (rows cols : Nat) (heap : Heap α) : Except Fault (unique_ptr × Heap α) :=
  match layout tgt T rows cols with
  | Except.error e => Except.error e
  | Except.ok none => Except.ok (⟨0⟩, heap)
  | Except.ok (some L) =>
    match heap.malloc answer L.total with
    | (raw, heap1) =>
      if raw = 0 then Except.ok (⟨0⟩, heap1)
      else Except.ok (⟨raw⟩, fill_rows tgt T raw (raw + L.header_pad) rows cols heap1)

end V2

/-! ## `matrix.c` -/

namespace C

/-- Lines 45-49 of `new_matrix`: `padding = 0; misalign = layer_1_size % alignof (float);
if (misalign) padding = alignof (float) - misalign;`. -/
def padding (layer_1_size align : Nat) : Except Fault Nat :=
  match size_mod layer_1_size align with
  | Except.error e => Except.error e
  | Except.ok misalign => Except.ok (if misalign ≠ 0 then align - misalign else 0)

/-- Lines 27-56 of `new_matrix`: everything before the call of `malloc`; `T` stands for
`float`.  `none` is a `return NULL`. -/
def layout (tgt : Target) (T : ElemType) (dim1 dim2 : Nat) : Except Fault (Option Layout) :=
  if dim1 = 0 ∨ dim2 = 0 then Except.ok none
  else
    match mul_overflow_size tgt.SIZE_MAX dim1 tgt.ptr_size with
    | Except.error e => Except.error e
    | Except.ok Checked.overflow => Except.ok none
    | Except.ok (Checked.value layer_1_size) =>
    match mul_overflow_size tgt.SIZE_MAX dim1 dim2 with
    | Except.error e => Except.error e
    | Except.ok Checked.overflow => Except.ok none
    | Except.ok (Checked.value data_elems) =>
    match mul_overflow_size tgt.SIZE_MAX data_elems T.size with
    | Except.error e => Except.error e
    | Except.ok Checked.overflow => Except.ok none
    | Except.ok (Checked.value data_size) =>
    match padding layer_1_size T.align with
    | Except.error e => Except.error e
    | Except.ok padding =>
    match add_overflow_size tgt.SIZE_MAX layer_1_size padding with
    | Except.error e => Except.error e
    | Except.ok Checked.overflow => Except.ok none
    | Except.ok (Checked.value header_plus_pad) =>
    match add_overflow_size tgt.SIZE_MAX header_plus_pad data_size with
    | Except.error e => Except.error e
    | Except.ok Checked.overflow => Except.ok none
    | Except.ok (Checked.value total_size) =>
      Except.ok (some ⟨layer_1_size, data_elems, data_size, padding, header_plus_pad, total_size⟩)

/-- The function `new_matrix (dim1, dim2)`, lines 25-71: the returned `float**` and the heap
it leaves; `T` stands for `float`. -/
def new_matrix {α : Type} (tgt : Target) (T : ElemType) (answer : Nat → Nat)
    (dim1 dim2 : Nat) (heap : Heap α) : Except Fault (Nat × Heap α) :=
  match layout tgt T dim1 dim2 with
  | Except.error e => Except.error e
  | Except.ok none => Except.ok (0, heap)
  | Except.ok (some L) =>
    match heap.malloc answer L.total with
    | (raw, heap1) =>
      if raw = 0 then Except.ok (0, heap1)
      else Except.ok (raw, fill_rows tgt T raw (raw + L.header_pad) dim1 dim2 heap1)

end C

/-! ## The demo matrix -/

/-- The heap `make_matrix<int> (3, 2)` leaves on `lp64` when nothing was allocated before
and `malloc` places the 48-byte block at 4096: rows at 4120, 4128 and 4136. -/
def demo_heap : Heap Int :=
  fill_rows lp64 int32 4096 (4096 + 24) 3 2 ((Heap.empty (0 : Int)).malloc (fun _ => 4096) 48).2

/-! ## Writes, `free`, and the handle -/

/-- The assignment `mat.get ()[i][j] = v`. -/
def row_write {α : Type} (tgt : Target) (T : ElemType) (heap : Heap α) (mat : unique_ptr)
    (i j : Nat) (v : α) : Heap α :=
  heap.store_elem (elem_addr tgt T heap mat.get i j) v

/-- The assignment `s[k] = v` through a `std::span<T>`. -/
def V5.Span.assign {α : Type} (s : V5.Span) (T : ElemType) (heap : Heap α) (k : Nat) (v : α) :
    Heap α :=
  heap.store_elem (s.data + k * T.size) v

/-- The assignment `f[i] = v` through a `FlatRange<T>`. -/
def V4.FlatRange.assign {α : Type} (f : V4.FlatRange) (T : ElemType) (heap : Heap α)
    (i : Nat) (v : α) : Heap α :=
  heap.store_elem (f.first + i * T.size) v

/-- The conversion `explicit operator bool ()` of `FlatRange<T>`, lines 89-92 of
`matrix_uptr_v4.cpp`: `first != nullptr`. -/
def V4.FlatRange.operator_bool (f : V4.FlatRange) : Bool := decide (f.first ≠ 0)

/-- The live blocks without the first one at address `p`. -/
def remove_block (p : Nat) : List (Nat × Nat) → List (Nat × Nat)
  | [] => []
  | b :: bs => if b.1 = p then bs else b :: remove_block p bs

/-- The call `free (p)` of the C library: nothing happens for a null pointer, the live block
at `p` ends, and any other address is a fault. -/
def Heap.free {α : Type} (heap : Heap α) (p : Nat) : Except Fault (Heap α) :=
  if p = 0 then Except.ok heap
  else if heap.live.any (fun b => decide (b.1 = p)) then
    Except.ok ⟨heap.requests, remove_block p heap.live, heap.ptr_at, heap.elem_at⟩
  else Except.error Fault.invalid_free

/-- Modelled from the spec: the operation `release ()` of the handle, which the sources leave
to the destructor of `std::unique_ptr<T*, decltype (&std::free)>` (library code, not in the
repository).  It is invoked at the end of the owning scope; an empty handle releases
nothing, a handle that owns a block passes its address to `std::free` and is empty
afterwards. -/
def unique_ptr.release {α : Type} (h : unique_ptr) (heap : Heap α) :
    Except Fault (unique_ptr × Heap α) :=
  if h.get = 0 then Except.ok (⟨0⟩, heap)
  else
    match heap.free h.get with
    | Except.error e => Except.error e
    | Except.ok heap1 => Except.ok (⟨0⟩, heap1)

/-- Modelled from the spec: the move of a handle (the move constructor of
`std::unique_ptr`, library code, not in the repository): ownership goes to the new handle
and the source is left empty.  The result is the new handle and the source after the
move. -/
def unique_ptr.move (h : unique_ptr) : unique_ptr × unique_ptr := (⟨h.get⟩, ⟨0⟩)

/-! ## The demo of `matrix_uptr_v5.cpp` -/

/-- The conversion `int (x)` of a `size_t` to a 32-bit `int`: exact below `2^31`, modulo
`2^32` above. -/
def int_of_size (x : Nat) : Int :=
  if x % 2 ^ 32 < 2 ^ 31 then Int.ofNat (x % 2 ^ 32) else Int.ofNat (x % 2 ^ 32) - 2 ^ 32

namespace V5

/-- The loops of lines 98-100 of `main`, `mat.get ()[i][j] = f (i, j)` for `i < R`, `j < C`,
with the stored value as a parameter. -/
def fill {α : Type} (tgt : Target) (T : ElemType) (f : Nat → Nat → α) (mat : unique_ptr)
    (R C : Nat) (heap : Heap α) : Heap α :=
  (List.range R).foldl
    (fun h i => (List.range C).foldl (fun h2 j => row_write tgt T h2 mat i j (f i j)) h)
    heap

/-- The loops of lines 102-107 and 132-137 of `main`: the elements sent to `std::cout`, row
after row (the separators are left out). -/
def print_rows {α : Type} (tgt : Target) (T : ElemType) (heap : Heap α) (mat : unique_ptr)
    (R C : Nat) : List α :=
  (List.range R).flatMap (fun i => (List.range C).map (fun j => row_read tgt T heap mat i j))

/-- The loop `for (auto& x : flat) x = g (x);` over a span, line 115 of `main` with the
update `x *= 2` as a parameter. -/
def Span.for_each {α : Type} (s : Span) (T : ElemType) (g : α → α) (heap : Heap α) : Heap α :=
  (List.range s.size).foldl
    (fun h k => h.store_elem (s.data + k * T.size) (g (h.elem_at (s.data + k * T.size))))
    heap

/-- The loop of lines 118-119 of `main`: the elements of a span sent to `std::cout`. -/
def print_flat {α : Type} (s : Span) (T : ElemType) (heap : Heap α) : List α :=
  (List.range s.size).map (fun k => s.index T heap k)

/-- The loop of lines 123-127 of `main` over the indices `ks`:
`auto [i, j] = k_to_ij (k, C); assert (flat[k] == mat.get ()[i][j]);`. -/
def check_loop {α : Type} [DecidableEq α] (tgt : Target) (T : ElemType) (flat : Span)
    (mat : unique_ptr) (C : Nat) (heap : Heap α) : List Nat → Except Fault Unit
  | [] => Except.ok ()
  | k :: ks =>
    match k_to_ij k C with
    | Except.error e => Except.error e
    | Except.ok (i, j) =>
      if flat.index T heap k = row_read tgt T heap mat i j then
        check_loop tgt T flat mat C heap ks
      else Except.error Fault.assertion_failed

/-- The function `main`, lines 87-138, up to its closing brace; `T` stands for `int`.  The
result is the exit status (`EXIT_FAILURE` is 1), the handle `mat`, the elements sent to
`std::cout` and the heap.  The product `x * 2` is the one of `int` as long as it fits in an
`int`. -/
def main (tgt : Target) (T : ElemType) (answer : Nat → Nat) (heap : Heap Int) :
    Except Fault (Nat × unique_ptr × List Int × Heap Int) :=
  match make_matrix tgt T answer 3 2 heap with
  | Except.error e => Except.error e
  | Except.ok (mat, heap1) =>
    if mat.get = 0 then Except.ok (1, mat, [], heap1)
    else
      match fill tgt T
          (fun i j => int_of_size (wrap tgt.SIZE_MAX (wrap tgt.SIZE_MAX (10 * i) + j)))
          mat 3 2 heap1 with
      | heap2 =>
        match matriz_span tgt heap2 mat 3 2 with
        | flat =>
          match flat.for_each T (fun x => x * 2) heap2 with
          | heap3 =>
            match check_loop tgt T flat mat 2 heap3 (List.range flat.size) with
            | Except.error e => Except.error e
            | Except.ok _ =>
              Except.ok (0, mat,
                print_rows tgt T heap2 mat 3 2
                  ++ print_flat (matriz_cspan tgt heap3 mat 3 2) T heap3
                  ++ print_rows tgt T heap3 mat 3 2,
                heap3)

end V5


/-- The heap of the demo after the fill loop `mat.get ()[i][j] = int (10 * i + j)` on
`demo_heap`. -/
def demo_filled : Heap Int :=
  V5.fill lp64 int32
    (fun i j => int_of_size (wrap lp64.SIZE_MAX (wrap lp64.SIZE_MAX (10 * i) + j)))
    ⟨4096⟩ 3 2 demo_heap

/-- The heap of the demo after the loop `for (auto& x : flat) x *= 2;` on `demo_filled`. -/
def demo_scaled : Heap Int :=
  (V5.matriz_span lp64 demo_filled ⟨4096⟩ 3 2).for_each int32 (fun x => x * 2) demo_filled


/-! # Facts about the embedding -/

/-! ## The checked helpers -/

theorem wrap_of_le {M x : Nat} (h : x ≤ M) : wrap M x = x := by
  unfold wrap
  exact Nat.mod_eq_of_lt (by omega)

theorem mul_overflow_eq (M a b : Nat) :
    mul_overflow M a b
      = Except.ok (if M < a * b then Checked.overflow else Checked.value (a * b)) := by
  unfold mul_overflow size_div
  by_cases h0 : a = 0 ∨ b = 0
  · rcases h0 with h | h <;> simp [h]
  · have ha : a ≠ 0 := fun h => h0 (Or.inl h)
    have hb : b ≠ 0 := fun h => h0 (Or.inr h)
    have hiff : M / b < a ↔ M < a * b := Nat.div_lt_iff_lt_mul (Nat.pos_of_ne_zero hb)
    by_cases hov : M < a * b
    · have hq : M / b < a := hiff.mpr hov
      simp [ha, hb, hov, hq]
    · have hq : ¬ M / b < a := fun h => hov (hiff.mp h)
      have hw : wrap M (a * b) = a * b := wrap_of_le (by omega)
      simp [ha, hb, hov, hq, hw]

theorem add_overflow_eq (M a b : Nat) (hb : b ≤ M) :
    add_overflow M a b
      = Except.ok (if M < a + b then Checked.overflow else Checked.value (a + b)) := by
  unfold add_overflow
  by_cases hov : M < a + b
  · have hq : a > M - b := by omega
    simp [hov, hq]
  · have hq : ¬ a > M - b := by omega
    have hw : wrap M (a + b) = a + b := wrap_of_le (by omega)
    simp [hov, hq, hw]

theorem mul_overflow_size_eq (M a b : Nat) : mul_overflow_size M a b = mul_overflow M a b := rfl

theorem add_overflow_size_eq (M a b : Nat) : add_overflow_size M a b = add_overflow M a b := rfl

/-! ## The padding -/

theorem V5.padding_eq (h a : Nat) (ha : 0 < a) :
    V5.padding h a = Except.ok (if h % a = 0 then 0 else a - h % a) := by
  unfold V5.padding size_mod
  have : a ≠ 0 := by omega
  by_cases hm : h % a = 0 <;> simp [this, hm]

theorem V4.v4_padding_eq_v5 (h a : Nat) : V4.padding h a = V5.padding h a := rfl

theorem C.c_padding_eq_v5 (h a : Nat) : C.padding h a = V5.padding h a := rfl

theorem V2.padding_eq_v5 (h a : Nat) (ha : 0 < a) : V2.padding h a = V5.padding h a := by
  unfold V2.padding
  by_cases h1 : a > 1
  · simp only [h1, if_true]; rfl
  · have : a = 1 := by omega
    subst this
    simp [V5.padding_eq, Nat.mod_one]

theorem pad_props (h a : Nat) (ha : 0 < a) :
    (h + (if h % a = 0 then 0 else a - h % a)) % a = 0 ∧
    (if h % a = 0 then 0 else a - h % a) < a ∧
    ∀ q, (h + q) % a = 0 → (if h % a = 0 then 0 else a - h % a) ≤ q := by
  have hlt : h % a < a := Nat.mod_lt _ ha
  by_cases hm : h % a = 0
  · simp [hm, ha]
  · simp only [hm, if_false]
    refine ⟨?_, by omega, ?_⟩
    · have e : h + (a - h % a) = a * (h / a) + a := by
        have := Nat.div_add_mod h a
        omega
      rw [e]
      simp
    · intro q hq
      by_contra hc
      have hq' : q < a - h % a := by omega
      have e : h + q = a * (h / a) + (h % a + q) := by
        have := Nat.div_add_mod h a
        omega
      rw [e, Nat.mul_add_mod, Nat.mod_eq_of_lt (by omega)] at hq
      omega

/-! ## The layout computation -/

/-- The layout `make_matrix` aims at, on exact integers. -/
theorem V5.layout_eq (tgt : Target) (T : ElemType) (rows cols : Nat)
    (ha : 0 < T.align) (haM : T.align ≤ tgt.SIZE_MAX) :
    V5.layout tgt T rows cols = Except.ok
      (if rows ≠ 0 ∧ cols ≠ 0 ∧ rows * tgt.ptr_size ≤ tgt.SIZE_MAX ∧ rows * cols ≤ tgt.SIZE_MAX ∧
          rows * cols * T.size ≤ tgt.SIZE_MAX ∧
          rows * tgt.ptr_size
            + (if rows * tgt.ptr_size % T.align = 0 then 0
               else T.align - rows * tgt.ptr_size % T.align)
            + rows * cols * T.size ≤ tgt.SIZE_MAX
       then some ⟨rows * tgt.ptr_size, rows * cols, rows * cols * T.size,
          (if rows * tgt.ptr_size % T.align = 0 then 0
           else T.align - rows * tgt.ptr_size % T.align),
          rows * tgt.ptr_size
            + (if rows * tgt.ptr_size % T.align = 0 then 0
               else T.align - rows * tgt.ptr_size % T.align),
          rows * tgt.ptr_size
            + (if rows * tgt.ptr_size % T.align = 0 then 0
               else T.align - rows * tgt.ptr_size % T.align)
            + rows * cols * T.size⟩
       else none) := by
  obtain ⟨hp0, hplt, -⟩ := pad_props (rows * tgt.ptr_size) T.align ha
  generalize hpd : (if rows * tgt.ptr_size % T.align = 0 then 0
    else T.align - rows * tgt.ptr_size % T.align) = p at hp0 hplt ⊢
  have hpM : p ≤ tgt.SIZE_MAX := by omega
  have hpad : V5.padding (rows * tgt.ptr_size) T.align = Except.ok p := by
    rw [V5.padding_eq _ _ ha, hpd]
  by_cases hcond : rows ≠ 0 ∧ cols ≠ 0 ∧ rows * tgt.ptr_size ≤ tgt.SIZE_MAX ∧
      rows * cols ≤ tgt.SIZE_MAX ∧ rows * cols * T.size ≤ tgt.SIZE_MAX ∧
      rows * tgt.ptr_size + p + rows * cols * T.size ≤ tgt.SIZE_MAX
  · rw [if_pos hcond]
    obtain ⟨hr, hc, h1, h2, h3, h5⟩ := hcond
    have h4 : ¬ tgt.SIZE_MAX < rows * tgt.ptr_size + p := by omega
    unfold V5.layout
    rw [if_neg (by rintro (h | h) <;> contradiction)]
    simp only [mul_overflow_eq, if_neg (Nat.not_lt.mpr h1), if_neg (Nat.not_lt.mpr h2),
      if_neg (Nat.not_lt.mpr h3), hpad, add_overflow_eq _ _ _ hpM, if_neg h4,
      add_overflow_eq _ _ _ h3, if_neg (Nat.not_lt.mpr h5)]
  · rw [if_neg hcond]
    unfold V5.layout
    by_cases h0 : rows = 0 ∨ cols = 0
    · rw [if_pos h0]
    rw [if_neg h0]
    have hr : rows ≠ 0 := fun h => h0 (Or.inl h)
    have hc : cols ≠ 0 := fun h => h0 (Or.inr h)
    simp only [mul_overflow_eq]
    by_cases h1 : tgt.SIZE_MAX < rows * tgt.ptr_size
    · rw [if_pos h1]
    rw [if_neg h1]
    by_cases h2 : tgt.SIZE_MAX < rows * cols
    · rw [if_pos h2]
    rw [if_neg h2]
    simp only [mul_overflow_eq]
    by_cases h3 : tgt.SIZE_MAX < rows * cols * T.size
    · rw [if_pos h3]
    rw [if_neg h3]
    simp only [hpad, add_overflow_eq _ _ _ hpM]
    by_cases h4 : tgt.SIZE_MAX < rows * tgt.ptr_size + p
    · rw [if_pos h4]
    rw [if_neg h4]
    simp only [add_overflow_eq _ _ _ (Nat.le_of_not_lt h3)]
    by_cases h5 : tgt.SIZE_MAX < rows * tgt.ptr_size + p + rows * cols * T.size
    · rw [if_pos h5]
    exact absurd ⟨hr, hc, by omega, by omega, by omega, by omega⟩ hcond

theorem V4.v4_layout_eq_v5 (tgt : Target) (T : ElemType) (rows cols : Nat) :
    V4.layout tgt T rows cols = V5.layout tgt T rows cols := rfl

theorem C.c_layout_eq_v5 (tgt : Target) (T : ElemType) (rows cols : Nat) :
    C.layout tgt T rows cols = V5.layout tgt T rows cols := rfl

/-! ## The row-table loop -/

theorem fill_rows_succ {α : Type} (tgt : Target) (T : ElemType) (raw data n cols : Nat)
    (heap : Heap α) :
    fill_rows tgt T raw data (n + 1) cols heap
      = (fill_rows tgt T raw data n cols heap).store_ptr (raw + n * tgt.ptr_size)
          (data + wrap tgt.SIZE_MAX (n * cols) * T.size) := by
  unfold fill_rows
  rw [List.range_succ, List.foldl_append]
  rfl

theorem fill_rows_requests {α : Type} (tgt : Target) (T : ElemType) (raw data n cols : Nat)
    (heap : Heap α) : (fill_rows tgt T raw data n cols heap).requests = heap.requests := by
  induction n with
  | zero => rfl
  | succ n ih => rw [fill_rows_succ]; exact ih

theorem fill_rows_live {α : Type} (tgt : Target) (T : ElemType) (raw data n cols : Nat)
    (heap : Heap α) : (fill_rows tgt T raw data n cols heap).live = heap.live := by
  induction n with
  | zero => rfl
  | succ n ih => rw [fill_rows_succ]; exact ih

theorem fill_rows_elem_at {α : Type} (tgt : Target) (T : ElemType) (raw data n cols : Nat)
    (heap : Heap α) : (fill_rows tgt T raw data n cols heap).elem_at = heap.elem_at := by
  induction n with
  | zero => rfl
  | succ n ih => rw [fill_rows_succ]; exact ih

/-- After `n` turns of the loop, slot `i < n` of the table holds `data + i * cols`. -/
theorem fill_rows_ptr_at {α : Type} (tgt : Target) (T : ElemType) (raw data n cols : Nat)
    (heap : Heap α) (hp : 0 < tgt.ptr_size) (i : Nat) (hi : i < n) :
    (fill_rows tgt T raw data n cols heap).ptr_at (raw + i * tgt.ptr_size)
      = data + wrap tgt.SIZE_MAX (i * cols) * T.size := by
  induction n with
  | zero => omega
  | succ n ih =>
    rw [fill_rows_succ]
    show (if raw + i * tgt.ptr_size = raw + n * tgt.ptr_size then _ else _) = _
    by_cases hin : i = n
    · subst hin
      rw [if_pos rfl]
    · have hne : raw + i * tgt.ptr_size ≠ raw + n * tgt.ptr_size := by
        intro h
        have h2 : i * tgt.ptr_size = n * tgt.ptr_size := by omega
        exact hin (Nat.eq_of_mul_eq_mul_right hp h2)
      rw [if_neg hne]
      exact ih (by omega)

/-! ## `make_matrix` and `new_matrix` from the layout -/

theorem V5.make_matrix_of_none {α : Type} (tgt : Target) (T : ElemType) (answer : Nat → Nat)
    (rows cols : Nat) (heap : Heap α) (h : V5.layout tgt T rows cols = Except.ok none) :
    V5.make_matrix tgt T answer rows cols heap = Except.ok (⟨0⟩, heap) := by
  unfold V5.make_matrix
  rw [h]

theorem V5.make_matrix_of_some {α : Type} (tgt : Target) (T : ElemType) (answer : Nat → Nat)
    (rows cols : Nat) (heap : Heap α) (L : Layout)
    (h : V5.layout tgt T rows cols = Except.ok (some L)) :
    V5.make_matrix tgt T answer rows cols heap = Except.ok
      (if answer L.total = 0 then (⟨0⟩, (heap.malloc answer L.total).2)
       else (⟨answer L.total⟩,
         fill_rows tgt T (answer L.total) (answer L.total + L.header_pad) rows cols
           (heap.malloc answer L.total).2)) := by
  unfold V5.make_matrix
  rw [h]
  by_cases h0 : answer L.total = 0 <;> simp [Heap.malloc, h0]

theorem V4.make_matrix_eq_v5 {α : Type} (tgt : Target) (T : ElemType) (answer : Nat → Nat)
    (rows cols : Nat) (heap : Heap α) :
    V4.make_matrix tgt T answer rows cols heap = V5.make_matrix tgt T answer rows cols heap :=
  rfl

theorem C.new_matrix_of_none {α : Type} (tgt : Target) (T : ElemType) (answer : Nat → Nat)
    (rows cols : Nat) (heap : Heap α) (h : V5.layout tgt T rows cols = Except.ok none) :
    C.new_matrix tgt T answer rows cols heap = Except.ok (0, heap) := by
  unfold C.new_matrix
  rw [C.c_layout_eq_v5, h]

theorem C.new_matrix_of_some {α : Type} (tgt : Target) (T : ElemType) (answer : Nat → Nat)
    (rows cols : Nat) (heap : Heap α) (L : Layout)
    (h : V5.layout tgt T rows cols = Except.ok (some L)) :
    C.new_matrix tgt T answer rows cols heap = Except.ok
      (if answer L.total = 0 then (0, (heap.malloc answer L.total).2)
       else (answer L.total,
         fill_rows tgt T (answer L.total) (answer L.total + L.header_pad) rows cols
           (heap.malloc answer L.total).2)) := by
  unfold C.new_matrix
  rw [C.c_layout_eq_v5, h]
  by_cases h0 : answer L.total = 0 <;> simp [Heap.malloc, h0]

theorem malloc_requests {α : Type} (heap : Heap α) (answer : Nat → Nat) (size : Nat) :
    (heap.malloc answer size).2.requests = heap.requests ++ [size] := rfl

/-- With `sizeof (T) >= 1` the five overflow checks amount to one bound on the exact total. -/
theorem V5.layout_of_size_pos (tgt : Target) (T : ElemType) (rows cols : Nat)
    (hs : 1 ≤ T.size) (ha : 0 < T.align) (haM : T.align ≤ tgt.SIZE_MAX) (p : Nat)
    (hp : V5.padding (rows * tgt.ptr_size) T.align = Except.ok p) :
    V5.layout tgt T rows cols = Except.ok
      (if 0 < rows ∧ 0 < cols ∧
          rows * tgt.ptr_size + p + rows * cols * T.size ≤ tgt.SIZE_MAX
       then some ⟨rows * tgt.ptr_size, rows * cols, rows * cols * T.size, p,
          rows * tgt.ptr_size + p, rows * tgt.ptr_size + p + rows * cols * T.size⟩
       else none) := by
  rw [V5.padding_eq _ _ ha] at hp
  have hp' := Except.ok.inj hp
  rw [V5.layout_eq tgt T rows cols ha haM, hp']
  have hle : rows * cols ≤ rows * cols * T.size := Nat.le_mul_of_pos_right _ hs
  congr 1
  by_cases hc : 0 < rows ∧ 0 < cols ∧
      rows * tgt.ptr_size + p + rows * cols * T.size ≤ tgt.SIZE_MAX
  · rw [if_pos hc, if_pos]
    obtain ⟨h1, h2, h3⟩ := hc
    exact ⟨by omega, by omega, by omega, by omega, by omega, h3⟩
  · rw [if_neg hc, if_neg]
    rintro ⟨h1, h2, -, -, -, h3⟩
    exact hc ⟨by omega, by omega, h3⟩

/-- What a successful `make_matrix` has done: the layout fits, `malloc` has answered the
returned address, and the heap is the one the row-table loop leaves. -/
theorem V5.make_matrix_success {α : Type} (tgt : Target) (T : ElemType) (answer : Nat → Nat)
    (rows cols : Nat) (heap : Heap α) (r : unique_ptr × Heap α)
    (hok : V5.make_matrix tgt T answer rows cols heap = Except.ok r) (hnn : r.1.get ≠ 0)
    (ha : 0 < T.align) (haM : T.align ≤ tgt.SIZE_MAX) :
    ∃ L : Layout, V5.layout tgt T rows cols = Except.ok (some L) ∧
      L.header_size = rows * tgt.ptr_size ∧ L.elems = rows * cols ∧
      L.data_size = rows * cols * T.size ∧
      V5.padding (rows * tgt.ptr_size) T.align = Except.ok L.padding ∧
      L.header_pad = rows * tgt.ptr_size + L.padding ∧
      L.total = rows * tgt.ptr_size + L.padding + rows * cols * T.size ∧
      L.header_pad % T.align = 0 ∧
      rows ≠ 0 ∧ cols ≠ 0 ∧ rows * cols ≤ tgt.SIZE_MAX ∧ L.total ≤ tgt.SIZE_MAX ∧
      answer L.total = r.1.get ∧
      r.2 = fill_rows tgt T r.1.get (r.1.get + L.header_pad) rows cols
        (heap.malloc answer L.total).2 := by
  have hlay := V5.layout_eq tgt T rows cols ha haM
  have hpad := V5.padding_eq (rows * tgt.ptr_size) T.align ha
  obtain ⟨hp0, -, -⟩ := pad_props (rows * tgt.ptr_size) T.align ha
  generalize (if rows * tgt.ptr_size % T.align = 0 then 0
    else T.align - rows * tgt.ptr_size % T.align) = p at hlay hpad hp0
  by_cases hc : rows ≠ 0 ∧ cols ≠ 0 ∧ rows * tgt.ptr_size ≤ tgt.SIZE_MAX ∧
      rows * cols ≤ tgt.SIZE_MAX ∧ rows * cols * T.size ≤ tgt.SIZE_MAX ∧
      rows * tgt.ptr_size + p + rows * cols * T.size ≤ tgt.SIZE_MAX
  · rw [if_pos hc] at hlay
    have hmk := V5.make_matrix_of_some tgt T answer rows cols heap _ hlay
    rw [hok] at hmk
    have hr := Except.ok.inj hmk
    simp only at hr
    by_cases h0 : answer (rows * tgt.ptr_size + p + rows * cols * T.size) = 0
    · rw [if_pos h0] at hr
      rw [hr] at hnn
      exact absurd rfl hnn
    · rw [if_neg h0] at hr
      refine ⟨_, hlay, rfl, rfl, rfl, hpad, rfl, rfl, hp0, hc.1, hc.2.1, hc.2.2.2.1,
        hc.2.2.2.2.2, ?_, ?_⟩
      · rw [hr]
      · rw [hr]
  · rw [if_neg hc] at hlay
    have hmk := V5.make_matrix_of_none tgt T answer rows cols heap hlay
    rw [hok] at hmk
    have hr := Except.ok.inj hmk
    rw [hr] at hnn
    exact absurd rfl hnn

/-- The `float**` of `new_matrix` is the handle of `make_matrix` on the same arguments. -/
theorem C.new_matrix_eq_v5 {α : Type} (tgt : Target) (T : ElemType) (answer : Nat → Nat)
    (rows cols : Nat) (heap : Heap α) :
    C.new_matrix tgt T answer rows cols heap
      = (V5.make_matrix tgt T answer rows cols heap).map (fun r => (r.1.get, r.2)) := by
  unfold C.new_matrix V5.make_matrix
  rw [C.c_layout_eq_v5]
  cases V5.layout tgt T rows cols with
  | error e => rfl
  | ok o =>
    cases o with
    | none => rfl
    | some L =>
      by_cases h0 : answer L.total = 0 <;> simp [Heap.malloc, h0, Except.map]

/-! # The claims -/

/-- C1: for an element type of size at least one and a non-zero alignment (itself a
`size_t` value), `make_matrix` and `new_matrix` pass exactly one request to `malloc`, of size
exactly `rows * sizeof (T*) + padding + rows * cols * sizeof (T)` computed on unbounded
integers, when `rows > 0`, `cols > 0` and that value is at most `SIZE_MAX`; otherwise they
request nothing and return the null handle.  In particular they return null without a
request when `rows * cols * sizeof (T)` exceeds `SIZE_MAX`. -/
theorem make_matrix_request_exact {α : Type} (tgt : Target) (T : ElemType)
    (answer : Nat → Nat) (rows cols : Nat) (heap : Heap α)
    (hs : 1 ≤ T.size) (ha : 0 < T.align) (haM : T.align ≤ tgt.SIZE_MAX) :
    ∃ p r r', V5.padding (rows * tgt.ptr_size) T.align = Except.ok p ∧
      V5.make_matrix tgt T answer rows cols heap = Except.ok r ∧
      C.new_matrix tgt T answer rows cols heap = Except.ok r' ∧
      (r.2.requests =
        if 0 < rows ∧ 0 < cols ∧
          rows * tgt.ptr_size + p + rows * cols * T.size ≤ tgt.SIZE_MAX
        then heap.requests ++ [rows * tgt.ptr_size + p + rows * cols * T.size]
        else heap.requests) ∧
      r'.2.requests = r.2.requests ∧
      (¬ (0 < rows ∧ 0 < cols ∧
          rows * tgt.ptr_size + p + rows * cols * T.size ≤ tgt.SIZE_MAX) →
        r.1.get = 0 ∧ r'.1 = 0) ∧
      (tgt.SIZE_MAX < rows * cols * T.size →
        r.1.get = 0 ∧ r'.1 = 0 ∧ r.2.requests = heap.requests) := by
  have hpad := V5.padding_eq (rows * tgt.ptr_size) T.align ha
  generalize (if rows * tgt.ptr_size % T.align = 0 then 0
    else T.align - rows * tgt.ptr_size % T.align) = p at hpad
  have hlay := V5.layout_of_size_pos tgt T rows cols hs ha haM p hpad
  by_cases hc : 0 < rows ∧ 0 < cols ∧
      rows * tgt.ptr_size + p + rows * cols * T.size ≤ tgt.SIZE_MAX
  · rw [if_pos hc] at hlay
    refine ⟨p, _, _, hpad, V5.make_matrix_of_some tgt T answer rows cols heap _ hlay,
      C.new_matrix_of_some tgt T answer rows cols heap _ hlay, ?_, ?_, ?_, ?_⟩
    · rw [if_pos hc]
      by_cases h0 : answer (rows * tgt.ptr_size + p + rows * cols * T.size) = 0
      · simp [h0, malloc_requests]
      · simp [h0, malloc_requests, fill_rows_requests]
    · by_cases h0 : answer (rows * tgt.ptr_size + p + rows * cols * T.size) = 0
      · simp [h0]
      · simp [h0, fill_rows_requests]
    · intro hn
      exact absurd hc hn
    · intro hov
      omega
  · rw [if_neg hc] at hlay
    refine ⟨p, _, _, hpad, V5.make_matrix_of_none tgt T answer rows cols heap hlay,
      C.new_matrix_of_none tgt T answer rows cols heap hlay, ?_, rfl, ?_, ?_⟩
    · rw [if_neg hc]
    · intro _
      exact ⟨rfl, rfl⟩
    · intro _
      exact ⟨rfl, rfl, rfl⟩

/-- C1, on the 3 x 2 `int` matrix of the demo: one request of 24 + 0 + 24 bytes. -/
theorem make_matrix_request_exact_witness :
    1 ≤ int32.size ∧ 0 < int32.align ∧ int32.align ≤ lp64.SIZE_MAX ∧
    ∃ p r r', V5.padding (3 * lp64.ptr_size) int32.align = Except.ok p ∧
      V5.make_matrix lp64 int32 (fun _ => 4096) 3 2 (Heap.empty (0 : Int)) = Except.ok r ∧
      C.new_matrix lp64 int32 (fun _ => 4096) 3 2 (Heap.empty (0 : Int)) = Except.ok r' ∧
      (r.2.requests =
        if 0 < 3 ∧ 0 < 2 ∧ 3 * lp64.ptr_size + p + 3 * 2 * int32.size ≤ lp64.SIZE_MAX
        then (Heap.empty (0 : Int)).requests ++ [3 * lp64.ptr_size + p + 3 * 2 * int32.size]
        else (Heap.empty (0 : Int)).requests) ∧
      r'.2.requests = r.2.requests ∧
      (¬ (0 < 3 ∧ 0 < 2 ∧ 3 * lp64.ptr_size + p + 3 * 2 * int32.size ≤ lp64.SIZE_MAX) →
        r.1.get = 0 ∧ r'.1 = 0) ∧
      (lp64.SIZE_MAX < 3 * 2 * int32.size →
        r.1.get = 0 ∧ r'.1 = 0 ∧ r.2.requests = (Heap.empty (0 : Int)).requests) :=
  ⟨by decide, by decide, by decide,
    make_matrix_request_exact lp64 int32 (fun _ => 4096) 3 2 (Heap.empty (0 : Int))
      (by decide) (by decide) (by decide)⟩

/-- C2: when `rows == 0` or `cols == 0`, `make_matrix` (v2, v4, v5) and `new_matrix` return
the null handle and leave the heap as it was (no request to `malloc`), whatever the other
dimension and the element type. -/
theorem zero_dimension_returns_null {α : Type} (tgt : Target) (T : ElemType)
    (answer : Nat → Nat) (rows cols : Nat) (heap : Heap α) (h : rows = 0 ∨ cols = 0) :
    V5.make_matrix tgt T answer rows cols heap = Except.ok (⟨0⟩, heap) ∧
    V4.make_matrix tgt T answer rows cols heap = Except.ok (⟨0⟩, heap) ∧
    V2.make_matrix tgt T answer rows cols heap = Except.ok (⟨0⟩, heap) ∧
    C.new_matrix tgt T answer rows cols heap = Except.ok (0, heap) := by
  have h5 : V5.layout tgt T rows cols = Except.ok none := by
    unfold V5.layout
    rw [if_pos h]
  have h2 : V2.layout tgt T rows cols = Except.ok none := by
    unfold V2.layout
    rw [if_pos h]
  refine ⟨V5.make_matrix_of_none tgt T answer rows cols heap h5, ?_, ?_,
    C.new_matrix_of_none tgt T answer rows cols heap h5⟩
  · rw [V4.make_matrix_eq_v5]
    exact V5.make_matrix_of_none tgt T answer rows cols heap h5
  · unfold V2.make_matrix
    rw [h2]

/-- C2, with zero rows and `SIZE_MAX` columns. -/
theorem zero_dimension_returns_null_witness :
    ((0 : Nat) = 0 ∨ lp64.SIZE_MAX = 0) ∧
    V5.make_matrix lp64 int32 (fun _ => 4096) 0 lp64.SIZE_MAX (Heap.empty (0 : Int))
      = Except.ok (⟨0⟩, Heap.empty (0 : Int)) ∧
    V4.make_matrix lp64 int32 (fun _ => 4096) 0 lp64.SIZE_MAX (Heap.empty (0 : Int))
      = Except.ok (⟨0⟩, Heap.empty (0 : Int)) ∧
    V2.make_matrix lp64 int32 (fun _ => 4096) 0 lp64.SIZE_MAX (Heap.empty (0 : Int))
      = Except.ok (⟨0⟩, Heap.empty (0 : Int)) ∧
    C.new_matrix lp64 int32 (fun _ => 4096) 0 lp64.SIZE_MAX (Heap.empty (0 : Int))
      = Except.ok (0, Heap.empty (0 : Int)) :=
  ⟨Or.inl rfl,
    zero_dimension_returns_null lp64 int32 (fun _ => 4096) 0 lp64.SIZE_MAX
      (Heap.empty (0 : Int)) (Or.inl rfl)⟩

/-- C3: `mul_overflow` (and `mul_overflow_size`) runs to its end on all operands, never
dividing by zero; it reports overflow exactly when the exact product exceeds `SIZE_MAX`,
and otherwise leaves the exact product in `out`, which is zero when an operand is zero. -/
theorem mul_overflow_exact (SIZE_MAX a b : Nat) :
    mul_overflow SIZE_MAX a b
      = Except.ok (if SIZE_MAX < a * b then Checked.overflow else Checked.value (a * b)) ∧
    mul_overflow_size SIZE_MAX a b
      = Except.ok (if SIZE_MAX < a * b then Checked.overflow else Checked.value (a * b)) ∧
    mul_overflow SIZE_MAX a b ≠ Except.error Fault.division_by_zero ∧
    mul_overflow_size SIZE_MAX a b ≠ Except.error Fault.division_by_zero ∧
    (a = 0 ∨ b = 0 →
      mul_overflow SIZE_MAX a b = Except.ok (Checked.value 0) ∧
      mul_overflow_size SIZE_MAX a b = Except.ok (Checked.value 0)) := by
  have h := mul_overflow_eq SIZE_MAX a b
  refine ⟨h, by rw [mul_overflow_size_eq]; exact h, ?_, ?_, ?_⟩
  · rw [h]; exact fun hh => Except.noConfusion hh
  · rw [mul_overflow_size_eq, h]; exact fun hh => Except.noConfusion hh
  · intro h0
    rw [mul_overflow_size_eq]
    unfold mul_overflow
    rw [if_pos h0]
    exact ⟨rfl, rfl⟩

/-- C4: for a `size_t` right operand, `add_overflow` (and `add_overflow_size`) reports
overflow exactly when the exact sum exceeds `SIZE_MAX`, and otherwise leaves the exact sum
in `out`. -/
theorem add_overflow_exact (SIZE_MAX a b : Nat) (hb : b ≤ SIZE_MAX) :
    add_overflow SIZE_MAX a b
      = Except.ok (if SIZE_MAX < a + b then Checked.overflow else Checked.value (a + b)) ∧
    add_overflow_size SIZE_MAX a b
      = Except.ok (if SIZE_MAX < a + b then Checked.overflow else Checked.value (a + b)) := by
  have h := add_overflow_eq SIZE_MAX a b hb
  exact ⟨h, by rw [add_overflow_size_eq]; exact h⟩

/-- C4, at `SIZE_MAX + 1` on a 64-bit target. -/
theorem add_overflow_exact_witness :
    1 ≤ lp64.SIZE_MAX ∧
    add_overflow lp64.SIZE_MAX lp64.SIZE_MAX 1
      = Except.ok (if lp64.SIZE_MAX < lp64.SIZE_MAX + 1 then Checked.overflow
          else Checked.value (lp64.SIZE_MAX + 1)) ∧
    add_overflow_size lp64.SIZE_MAX lp64.SIZE_MAX 1
      = Except.ok (if lp64.SIZE_MAX < lp64.SIZE_MAX + 1 then Checked.overflow
          else Checked.value (lp64.SIZE_MAX + 1)) :=
  ⟨by decide, add_overflow_exact lp64.SIZE_MAX lp64.SIZE_MAX 1 (by decide)⟩

/-- C5: for every header size `h` and alignment `a >= 1`, the padding computed by
`make_matrix` (v5, v4, v2) and `new_matrix` is the least `p` with `(h + p) % a == 0`, and
`p < a`. -/
theorem padding_least (h a : Nat) (ha : 1 ≤ a) :
    ∃ p, V5.padding h a = Except.ok p ∧ V4.padding h a = Except.ok p ∧
      V2.padding h a = Except.ok p ∧ C.padding h a = Except.ok p ∧
      (h + p) % a = 0 ∧ p < a ∧ ∀ q, (h + q) % a = 0 → p ≤ q := by
  have h5 := V5.padding_eq h a ha
  refine ⟨_, h5, ?_, ?_, ?_, pad_props h a ha⟩
  · rw [V4.v4_padding_eq_v5]; exact h5
  · rw [V2.padding_eq_v5 h a ha]; exact h5
  · rw [C.c_padding_eq_v5]; exact h5

/-- C5, for a 24-byte row table and 16-byte alignment: 8 bytes of padding. -/
theorem padding_least_witness :
    1 ≤ 16 ∧
    ∃ p, V5.padding 24 16 = Except.ok p ∧ V4.padding 24 16 = Except.ok p ∧
      V2.padding 24 16 = Except.ok p ∧ C.padding 24 16 = Except.ok p ∧
      (24 + p) % 16 = 0 ∧ p < 16 ∧ ∀ q, (24 + q) % 16 = 0 → p ≤ q :=
  ⟨by decide, padding_least 24 16 (by decide)⟩

/-- C6: the data segment base `raw + header_pad` must be a multiple of `alignof (T)`, and the
code says so itself (`padding para alinhar o bloco de dados a alignof(T)`), but it aligns
only the offset and takes the block from plain `malloc`.  For an element type aligned to 32
bytes and a block that `malloc` places at 4112 (a multiple of 16, not of 32),
`make_matrix<T> (1, 1)` of v5, v4 and v2 succeeds with `header_pad == 32`, a multiple of 32,
and row 0 of the table, the data segment base, is 4144, which is not a multiple of 32. -/
theorem data_base_misaligned_for_extended_alignment :
    V5.layout lp64 aligned32 1 1 = Except.ok (some ⟨8, 1, 32, 24, 32, 64⟩) ∧
    (V5.make_matrix lp64 aligned32 (fun _ => 4112) 1 1 (Heap.empty (0 : Int))).map
        (fun r => (r.1.get, r.2.requests, r.2.ptr_at 4112))
      = Except.ok (4112, [64], 4144) ∧
    (V4.make_matrix lp64 aligned32 (fun _ => 4112) 1 1 (Heap.empty (0 : Int))).map
        (fun r => (r.1.get, r.2.requests, r.2.ptr_at 4112))
      = Except.ok (4112, [64], 4144) ∧
    (V2.make_matrix lp64 aligned32 (fun _ => 4112) 1 1 (Heap.empty (0 : Int))).map
        (fun r => (r.1.get, r.2.requests, r.2.ptr_at 4112))
      = Except.ok (4112, [64], 4144) ∧
    4112 % 16 = 0 ∧ 32 % aligned32.align = 0 ∧ (4112 + 32) % aligned32.align ≠ 0 := by
  decide

/-- C7: after a successful `make_matrix<T> (rows, cols)` (`new_matrix` returns the same
address and heap), for every `i < rows` the product `i * cols` fits in `size_t` and entry
`i` of the row table holds the address `raw + header_pad + i * cols * sizeof (T)`, that is
`data + i * cols` in elements. -/
theorem row_table_entries {α : Type} (tgt : Target) (T : ElemType) (answer : Nat → Nat)
    (rows cols : Nat) (heap : Heap α) (r : unique_ptr × Heap α)
    (hok : V5.make_matrix tgt T answer rows cols heap = Except.ok r) (hnn : r.1.get ≠ 0)
    (ha : 0 < T.align) (haM : T.align ≤ tgt.SIZE_MAX) (hp : 0 < tgt.ptr_size) :
    ∃ L : Layout, V5.layout tgt T rows cols = Except.ok (some L) ∧
      C.new_matrix tgt T answer rows cols heap = Except.ok (r.1.get, r.2) ∧
      ∀ i, i < rows →
        i * cols ≤ tgt.SIZE_MAX ∧
        r.2.ptr_at (r.1.get + i * tgt.ptr_size)
          = r.1.get + L.header_pad + i * cols * T.size := by
  obtain ⟨L, hlay, -, -, -, -, -, -, -, -, -, hrc, -, -, hheap⟩ :=
    V5.make_matrix_success tgt T answer rows cols heap r hok hnn ha haM
  refine ⟨L, hlay, ?_, ?_⟩
  · rw [C.new_matrix_eq_v5, hok]
    rfl
  · intro i hi
    have hic : i * cols ≤ tgt.SIZE_MAX :=
      Nat.le_trans (Nat.mul_le_mul_right cols (Nat.le_of_lt hi)) hrc
    have h := fill_rows_ptr_at tgt T r.1.get (r.1.get + L.header_pad) rows cols
      (heap.malloc answer L.total).2 hp i hi
    rw [← hheap, wrap_of_le hic] at h
    exact ⟨hic, h⟩

/-- C7, on the 3 x 2 `int` matrix placed at 4096. -/
theorem row_table_entries_witness :
    V5.make_matrix lp64 int32 (fun _ => 4096) 3 2 (Heap.empty (0 : Int))
      = Except.ok (⟨4096⟩, demo_heap) ∧
    (4096 : Nat) ≠ 0 ∧ 0 < int32.align ∧ int32.align ≤ lp64.SIZE_MAX ∧ 0 < lp64.ptr_size ∧
    ∃ L : Layout, V5.layout lp64 int32 3 2 = Except.ok (some L) ∧
      C.new_matrix lp64 int32 (fun _ => 4096) 3 2 (Heap.empty (0 : Int))
        = Except.ok (4096, demo_heap) ∧
      ∀ i, i < 3 →
        i * 2 ≤ lp64.SIZE_MAX ∧
        demo_heap.ptr_at (4096 + i * lp64.ptr_size)
          = 4096 + L.header_pad + i * 2 * int32.size :=
  ⟨rfl, by decide, by decide, by decide, by decide,
    row_table_entries lp64 int32 (fun _ => 4096) 3 2 (Heap.empty (0 : Int))
      (⟨4096⟩, demo_heap) rfl (by decide) (by decide) (by decide) (by decide)⟩

/-- C8: after a successful `make_matrix<T> (rows, cols)` (`new_matrix` returns the same
address and heap) the block `[raw, raw + total)` is live, and for every `i < rows`,
`j < cols` the element `table[i][j]` sits at `raw + header_pad + (i * cols + j) * sizeof (T)`:
its bytes start at or after the end of the row table `raw + rows * sizeof (T*)` and end at or
before `raw + total`; slot `i` of the row table lies inside the table, which lies inside the
block. -/
theorem element_inside_block {α : Type} (tgt : Target) (T : ElemType) (answer : Nat → Nat)
    (rows cols : Nat) (heap : Heap α) (r : unique_ptr × Heap α)
    (hok : V5.make_matrix tgt T answer rows cols heap = Except.ok r) (hnn : r.1.get ≠ 0)
    (ha : 0 < T.align) (haM : T.align ≤ tgt.SIZE_MAX) (hp : 0 < tgt.ptr_size) :
    ∃ L : Layout, V5.layout tgt T rows cols = Except.ok (some L) ∧
      C.new_matrix tgt T answer rows cols heap = Except.ok (r.1.get, r.2) ∧
      (r.1.get, L.total) ∈ r.2.live ∧
      r.2.requests = heap.requests ++ [L.total] ∧
      r.1.get + rows * tgt.ptr_size ≤ r.1.get + L.total ∧
      ∀ i j, i < rows → j < cols →
        elem_addr tgt T r.2 r.1.get i j
          = r.1.get + L.header_pad + (i * cols + j) * T.size ∧
        r.1.get + rows * tgt.ptr_size ≤ elem_addr tgt T r.2 r.1.get i j ∧
        elem_addr tgt T r.2 r.1.get i j + T.size ≤ r.1.get + L.total ∧
        r.1.get + i * tgt.ptr_size + tgt.ptr_size ≤ r.1.get + rows * tgt.ptr_size := by
  obtain ⟨L, hlay, -, -, -, -, hhp, htot, -, -, -, hrc, -, hans, hheap⟩ :=
    V5.make_matrix_success tgt T answer rows cols heap r hok hnn ha haM
  refine ⟨L, hlay, ?_, ?_, ?_, by omega, ?_⟩
  · rw [C.new_matrix_eq_v5, hok]
    rfl
  · rw [hheap, fill_rows_live]
    simp [Heap.malloc, hans, hnn]
  · rw [hheap, fill_rows_requests]
    rfl
  · intro i j hi hj
    have hic : i * cols ≤ tgt.SIZE_MAX :=
      Nat.le_trans (Nat.mul_le_mul_right cols (Nat.le_of_lt hi)) hrc
    have h := fill_rows_ptr_at tgt T r.1.get (r.1.get + L.header_pad) rows cols
      (heap.malloc answer L.total).2 hp i hi
    rw [← hheap, wrap_of_le hic] at h
    have haddr : elem_addr tgt T r.2 r.1.get i j
        = r.1.get + L.header_pad + (i * cols + j) * T.size := by
      unfold elem_addr
      rw [h, Nat.add_mul]
      omega
    have hin : (i * cols + j + 1) * T.size ≤ rows * cols * T.size := by
      apply Nat.mul_le_mul_right
      have h1 : (i + 1) * cols ≤ rows * cols := Nat.mul_le_mul_right cols hi
      rw [Nat.add_mul, Nat.one_mul] at h1
      omega
    rw [Nat.add_mul, Nat.one_mul] at hin
    have hslot : (i + 1) * tgt.ptr_size ≤ rows * tgt.ptr_size :=
      Nat.mul_le_mul_right _ hi
    rw [Nat.add_mul, Nat.one_mul] at hslot
    rw [haddr]
    refine ⟨rfl, by omega, by omega, by omega⟩

/-- C8, on the 3 x 2 `int` matrix placed at 4096. -/
theorem element_inside_block_witness :
    V5.make_matrix lp64 int32 (fun _ => 4096) 3 2 (Heap.empty (0 : Int))
      = Except.ok (⟨4096⟩, demo_heap) ∧
    (4096 : Nat) ≠ 0 ∧ 0 < int32.align ∧ int32.align ≤ lp64.SIZE_MAX ∧ 0 < lp64.ptr_size ∧
    ∃ L : Layout, V5.layout lp64 int32 3 2 = Except.ok (some L) ∧
      C.new_matrix lp64 int32 (fun _ => 4096) 3 2 (Heap.empty (0 : Int))
        = Except.ok (4096, demo_heap) ∧
      (4096, L.total) ∈ demo_heap.live ∧
      demo_heap.requests = (Heap.empty (0 : Int)).requests ++ [L.total] ∧
      4096 + 3 * lp64.ptr_size ≤ 4096 + L.total ∧
      ∀ i j, i < 3 → j < 2 →
        elem_addr lp64 int32 demo_heap 4096 i j
          = 4096 + L.header_pad + (i * 2 + j) * int32.size ∧
        4096 + 3 * lp64.ptr_size ≤ elem_addr lp64 int32 demo_heap 4096 i j ∧
        elem_addr lp64 int32 demo_heap 4096 i j + int32.size ≤ 4096 + L.total ∧
        4096 + i * lp64.ptr_size + lp64.ptr_size ≤ 4096 + 3 * lp64.ptr_size :=
  ⟨rfl, by decide, by decide, by decide, by decide,
    element_inside_block lp64 int32 (fun _ => 4096) 3 2 (Heap.empty (0 : Int))
      (⟨4096⟩, demo_heap) rfl (by decide) (by decide) (by decide) (by decide)⟩

/-- C9: take a matrix built by a successful `make_matrix<T> (rows, cols)` (the same in v4
and v5) and any later memory `mem` whose row table is the one `make_matrix` wrote, whatever
its elements.  The flat views `matriz_span`, `matriz_cspan` (v5) and `matriz_as_range`,
`matriz_as_crange` (v4, whose `assert` holds) taken with the same `rows` and `cols` have
length `rows * cols`; for every `k < rows * cols`, `k_to_ij (k, cols)` returns
`(k / cols, k % cols)` and `flat[k]` is `table[k / cols][k % cols]`; and for every `i < rows`,
`j < cols`, `flat[i * cols + j]` is `table[i][j]`. -/
theorem flat_view_is_row_major {α : Type} (tgt : Target) (T : ElemType) (answer : Nat → Nat)
    (rows cols : Nat) (heap : Heap α) (r : unique_ptr × Heap α)
    (hok : V5.make_matrix tgt T answer rows cols heap = Except.ok r) (hnn : r.1.get ≠ 0)
    (ha : 0 < T.align) (haM : T.align ≤ tgt.SIZE_MAX) (hp : 0 < tgt.ptr_size)
    (mem : Heap α)
    (hmem : ∀ i, i < rows →
      mem.ptr_at (r.1.get + i * tgt.ptr_size) = r.2.ptr_at (r.1.get + i * tgt.ptr_size)) :
    V4.make_matrix tgt T answer rows cols heap = Except.ok r ∧
    ∃ (flat : V5.Span) (f : V4.FlatRange),
      V5.matriz_span tgt mem r.1 rows cols = flat ∧
      V5.matriz_cspan tgt mem r.1 rows cols = flat ∧
      V4.matriz_as_range tgt mem r.1 rows cols = Except.ok f ∧
      V4.matriz_as_crange tgt mem r.1 rows cols = Except.ok f ∧
      flat.size = rows * cols ∧ f.size = rows * cols ∧
      (∀ k, k < rows * cols →
        V5.k_to_ij k cols = Except.ok (k / cols, k % cols) ∧
        V4.k_to_ij k cols = Except.ok (k / cols, k % cols) ∧
        flat.index T mem k = row_read tgt T mem r.1 (k / cols) (k % cols) ∧
        f.index T mem k = row_read tgt T mem r.1 (k / cols) (k % cols)) ∧
      (∀ i j, i < rows → j < cols →
        flat.index T mem (i * cols + j) = row_read tgt T mem r.1 i j ∧
        f.index T mem (i * cols + j) = row_read tgt T mem r.1 i j) := by
  obtain ⟨L, -, -, -, -, -, -, -, -, hr0, hc0, hrc, -, -, hheap⟩ :=
    V5.make_matrix_success tgt T answer rows cols heap r hok hnn ha haM
  have hrow : ∀ i, i < rows →
      mem.ptr_at (r.1.get + i * tgt.ptr_size)
        = r.1.get + L.header_pad + i * cols * T.size := by
    intro i hi
    have hic : i * cols ≤ tgt.SIZE_MAX :=
      Nat.le_trans (Nat.mul_le_mul_right cols (Nat.le_of_lt hi)) hrc
    have h := fill_rows_ptr_at tgt T r.1.get (r.1.get + L.header_pad) rows cols
      (heap.malloc answer L.total).2 hp i hi
    rw [← hheap, wrap_of_le hic] at h
    rw [hmem i hi, h]
  have hfirst : mem.ptr_at (r.1.get + 0 * tgt.ptr_size) = r.1.get + L.header_pad := by
    have h := hrow 0 (Nat.pos_of_ne_zero hr0)
    simpa using h
  have hfirst0 : mem.ptr_at (r.1.get + 0 * tgt.ptr_size) ≠ 0 := by
    rw [hfirst]
    omega
  have hspan : V5.matriz_span tgt mem r.1 rows cols
      = ⟨r.1.get + L.header_pad, rows * cols⟩ := by
    unfold V5.matriz_span
    rw [if_pos hnn, hfirst, wrap_of_le hrc]
  have hrange : V4.matriz_as_range tgt mem r.1 rows cols
      = Except.ok ⟨r.1.get + L.header_pad, rows * cols⟩ := by
    unfold V4.matriz_as_range
    rw [if_neg hnn, if_neg hfirst0, hfirst, wrap_of_le hrc]
  have hcell : ∀ i j, i < rows →
      mem.elem_at (r.1.get + L.header_pad + (i * cols + j) * T.size)
        = row_read tgt T mem r.1 i j := by
    intro i j hi
    unfold row_read elem_addr
    rw [hrow i hi, Nat.add_mul, Nat.add_assoc (r.1.get + L.header_pad)]
  have hcols : cols ≠ 0 := hc0
  refine ⟨V4.make_matrix_eq_v5 tgt T answer rows cols heap ▸ hok, _, _, hspan, hspan,
    hrange, hrange, rfl, rfl, ?_, ?_⟩
  · intro k hk
    have hi : k / cols < rows := by
      rw [Nat.div_lt_iff_lt_mul (Nat.pos_of_ne_zero hcols)]
      exact hk
    have hdm : k / cols * cols + k % cols = k := Nat.div_add_mod' k cols
    have hidx := hcell (k / cols) (k % cols) hi
    rw [hdm] at hidx
    refine ⟨?_, ?_, hidx, hidx⟩
    · simp [V5.k_to_ij, size_div, size_mod, hcols]
    · simp [V4.k_to_ij, size_div, size_mod, hcols]
  · intro i j hi _
    exact ⟨hcell i j hi, hcell i j hi⟩

/-- C9, on the 3 x 2 `int` matrix placed at 4096, with the memory `make_matrix` left. -/
theorem flat_view_is_row_major_witness :
    V5.make_matrix lp64 int32 (fun _ => 4096) 3 2 (Heap.empty (0 : Int))
      = Except.ok (⟨4096⟩, demo_heap) ∧
    (4096 : Nat) ≠ 0 ∧ 0 < int32.align ∧ int32.align ≤ lp64.SIZE_MAX ∧ 0 < lp64.ptr_size ∧
    V4.make_matrix lp64 int32 (fun _ => 4096) 3 2 (Heap.empty (0 : Int))
      = Except.ok (⟨4096⟩, demo_heap) ∧
    ∃ (flat : V5.Span) (f : V4.FlatRange),
      V5.matriz_span lp64 demo_heap ⟨4096⟩ 3 2 = flat ∧
      V5.matriz_cspan lp64 demo_heap ⟨4096⟩ 3 2 = flat ∧
      V4.matriz_as_range lp64 demo_heap ⟨4096⟩ 3 2 = Except.ok f ∧
      V4.matriz_as_crange lp64 demo_heap ⟨4096⟩ 3 2 = Except.ok f ∧
      flat.size = 3 * 2 ∧ f.size = 3 * 2 ∧
      (∀ k, k < 3 * 2 →
        V5.k_to_ij k 2 = Except.ok (k / 2, k % 2) ∧
        V4.k_to_ij k 2 = Except.ok (k / 2, k % 2) ∧
        flat.index int32 demo_heap k = row_read lp64 int32 demo_heap ⟨4096⟩ (k / 2) (k % 2) ∧
        f.index int32 demo_heap k = row_read lp64 int32 demo_heap ⟨4096⟩ (k / 2) (k % 2)) ∧
      (∀ i j, i < 3 → j < 2 →
        flat.index int32 demo_heap (i * 2 + j) = row_read lp64 int32 demo_heap ⟨4096⟩ i j ∧
        f.index int32 demo_heap (i * 2 + j) = row_read lp64 int32 demo_heap ⟨4096⟩ i j) :=
  ⟨rfl, by decide, by decide, by decide, by decide,
    flat_view_is_row_major lp64 int32 (fun _ => 4096) 3 2 (Heap.empty (0 : Int))
      (⟨4096⟩, demo_heap) rfl (by decide) (by decide) (by decide) (by decide)
      demo_heap (fun _ _ => rfl)⟩

/-- C10: for `cols > 0` and a `size_t` index `k`, `k_to_ij (k, cols)` runs to its end and
returns `(k / cols, k % cols)`, and `ij_to_k` on that pair gives `k` back; the product
`i * cols` and the sum `i * cols + j` it computes fit in `size_t` (v5 and v4). -/
theorem ij_to_k_of_k_to_ij (SIZE_MAX k cols : Nat) (hc : 0 < cols) (hk : k ≤ SIZE_MAX) :
    ∃ i j, V5.k_to_ij k cols = Except.ok (i, j) ∧ V4.k_to_ij k cols = Except.ok (i, j) ∧
      i = k / cols ∧ j = k % cols ∧
      i * cols ≤ SIZE_MAX ∧ i * cols + j ≤ SIZE_MAX ∧ i * cols + j = k ∧
      V5.ij_to_k SIZE_MAX i j cols = k ∧ V4.ij_to_k SIZE_MAX i j cols = k := by
  have hne : cols ≠ 0 := by omega
  have hdm : k / cols * cols + k % cols = k := Nat.div_add_mod' k cols
  have h1 : k / cols * cols ≤ SIZE_MAX := by omega
  have h5 : V5.ij_to_k SIZE_MAX (k / cols) (k % cols) cols = k := by
    unfold V5.ij_to_k
    rw [wrap_of_le h1, hdm, wrap_of_le hk]
  refine ⟨k / cols, k % cols, ?_, ?_, rfl, rfl, h1, by omega, hdm, h5, h5⟩
  · simp [V5.k_to_ij, size_div, size_mod, hne]
  · simp [V4.k_to_ij, size_div, size_mod, hne]

/-- C10, at `k = 5` in a matrix of two columns. -/
theorem ij_to_k_of_k_to_ij_witness :
    0 < 2 ∧ 5 ≤ lp64.SIZE_MAX ∧
    ∃ i j, V5.k_to_ij 5 2 = Except.ok (i, j) ∧ V4.k_to_ij 5 2 = Except.ok (i, j) ∧
      i = 5 / 2 ∧ j = 5 % 2 ∧
      i * 2 ≤ lp64.SIZE_MAX ∧ i * 2 + j ≤ lp64.SIZE_MAX ∧ i * 2 + j = 5 ∧
      V5.ij_to_k lp64.SIZE_MAX i j 2 = 5 ∧ V4.ij_to_k lp64.SIZE_MAX i j 2 = 5 :=
  ⟨by decide, by decide, ij_to_k_of_k_to_ij lp64.SIZE_MAX 5 2 (by decide) (by decide)⟩

/-! ## Index arithmetic -/

theorem index_lt_of_coord {rows cols i j : Nat} (hi : i < rows) (hj : j < cols) :
    i * cols + j < rows * cols := by
  have h1 : (i + 1) * cols ≤ rows * cols := Nat.mul_le_mul_right cols hi
  rw [Nat.add_mul, Nat.one_mul] at h1
  omega

theorem coord_div {cols i j : Nat} (hj : j < cols) : (i * cols + j) / cols = i := by
  have hc : 0 < cols := by omega
  rw [Nat.add_comm, Nat.add_mul_div_right _ _ hc, Nat.div_eq_of_lt hj, Nat.zero_add]

theorem coord_mod {cols i j : Nat} (hj : j < cols) : (i * cols + j) % cols = j := by
  rw [Nat.add_comm, Nat.add_mul_mod_self_right, Nat.mod_eq_of_lt hj]

theorem V5.k_to_ij_eq (k cols : Nat) (hc : cols ≠ 0) :
    V5.k_to_ij k cols = Except.ok (k / cols, k % cols) := by
  simp [V5.k_to_ij, size_div, size_mod, hc]

theorem V4.v4_k_to_ij_eq (k cols : Nat) (hc : cols ≠ 0) :
    V4.k_to_ij k cols = Except.ok (k / cols, k % cols) := by
  simp [V4.k_to_ij, size_div, size_mod, hc]

theorem V5.ij_to_k_eq (M rows cols i j : Nat) (hrc : rows * cols ≤ M)
    (hi : i < rows) (hj : j < cols) : V5.ij_to_k M i j cols = i * cols + j := by
  have hlt := index_lt_of_coord hi hj
  have h1 : i * cols ≤ M := by omega
  unfold V5.ij_to_k
  rw [wrap_of_le h1, wrap_of_le (by omega)]

theorem V4.v4_ij_to_k_eq (M rows cols i j : Nat) (hrc : rows * cols ≤ M)
    (hi : i < rows) (hj : j < cols) : V4.ij_to_k M i j cols = i * cols + j :=
  V5.ij_to_k_eq M rows cols i j hrc hi hj

theorem coord_of_index {rows cols k : Nat} (hk : k < rows * cols) :
    cols ≠ 0 ∧ k / cols < rows ∧ k % cols < cols ∧ k / cols * cols + k % cols = k := by
  have hc : cols ≠ 0 := by
    intro h
    rw [h] at hk
    simp at hk
  have hpos : 0 < cols := Nat.pos_of_ne_zero hc
  exact ⟨hc, (Nat.div_lt_iff_lt_mul hpos).mpr hk, Nat.mod_lt _ hpos, Nat.div_add_mod' k cols⟩

/-- C11: when `rows * cols` fits in `size_t`, for every valid coordinate `i < rows`,
`j < cols`, `ij_to_k (i, j, cols)` is `i * cols + j` computed without wraparound, it is below
`rows * cols`, and `k_to_ij` applied to it runs to its end and returns `(i, j)` (v5 and v4).
Conversely every `k < rows * cols` is the image by `ij_to_k` of the valid coordinate
`k_to_ij (k, cols)`, so the two mappings are inverse bijections between `[0, rows * cols)`
and the valid coordinates. -/
theorem k_to_ij_of_ij_to_k (SIZE_MAX rows cols i j : Nat) (hrc : rows * cols ≤ SIZE_MAX)
    (hi : i < rows) (hj : j < cols) :
    V5.ij_to_k SIZE_MAX i j cols = i * cols + j ∧
    V4.ij_to_k SIZE_MAX i j cols = i * cols + j ∧
    i * cols + j < rows * cols ∧
    V5.k_to_ij (V5.ij_to_k SIZE_MAX i j cols) cols = Except.ok (i, j) ∧
    V4.k_to_ij (V4.ij_to_k SIZE_MAX i j cols) cols = Except.ok (i, j) ∧
    ∀ k, k < rows * cols →
      ∃ i' j', V5.k_to_ij k cols = Except.ok (i', j') ∧
        V4.k_to_ij k cols = Except.ok (i', j') ∧ i' < rows ∧ j' < cols ∧
        V5.ij_to_k SIZE_MAX i' j' cols = k ∧ V4.ij_to_k SIZE_MAX i' j' cols = k := by
  have hc : cols ≠ 0 := by omega
  have h5 := V5.ij_to_k_eq SIZE_MAX rows cols i j hrc hi hj
  have h4 := V4.v4_ij_to_k_eq SIZE_MAX rows cols i j hrc hi hj
  refine ⟨h5, h4, index_lt_of_coord hi hj, ?_, ?_, ?_⟩
  · rw [h5, V5.k_to_ij_eq _ _ hc, coord_div hj, coord_mod hj]
  · rw [h4, V4.v4_k_to_ij_eq _ _ hc, coord_div hj, coord_mod hj]
  · intro k hk
    obtain ⟨-, hi', hj', hdm⟩ := coord_of_index hk
    refine ⟨k / cols, k % cols, V5.k_to_ij_eq _ _ hc, V4.v4_k_to_ij_eq _ _ hc, hi', hj', ?_, ?_⟩
    · rw [V5.ij_to_k_eq SIZE_MAX rows cols _ _ hrc hi' hj', hdm]
    · rw [V4.v4_ij_to_k_eq SIZE_MAX rows cols _ _ hrc hi' hj', hdm]

/-- C11, at row 2, column 1 of the 3 x 2 matrix. -/
theorem k_to_ij_of_ij_to_k_witness :
    3 * 2 ≤ lp64.SIZE_MAX ∧ 2 < 3 ∧ 1 < 2 ∧
    V5.ij_to_k lp64.SIZE_MAX 2 1 2 = 2 * 2 + 1 ∧
    V4.ij_to_k lp64.SIZE_MAX 2 1 2 = 2 * 2 + 1 ∧
    2 * 2 + 1 < 3 * 2 ∧
    V5.k_to_ij (V5.ij_to_k lp64.SIZE_MAX 2 1 2) 2 = Except.ok (2, 1) ∧
    V4.k_to_ij (V4.ij_to_k lp64.SIZE_MAX 2 1 2) 2 = Except.ok (2, 1) ∧
    ∀ k, k < 3 * 2 →
      ∃ i' j', V5.k_to_ij k 2 = Except.ok (i', j') ∧
        V4.k_to_ij k 2 = Except.ok (i', j') ∧ i' < 3 ∧ j' < 2 ∧
        V5.ij_to_k lp64.SIZE_MAX i' j' 2 = k ∧ V4.ij_to_k lp64.SIZE_MAX i' j' 2 = k :=
  ⟨by decide, by decide, by decide,
    k_to_ij_of_ij_to_k lp64.SIZE_MAX 3 2 2 1 (by decide) (by decide) (by decide)⟩

/-- C19: when `rows * cols` fits in `size_t` (which a successful `make_matrix` guarantees),
for every `k < rows * cols` the call `k_to_ij (k, cols)` divides by a non-zero `cols`, runs
to its end and returns `(k / cols, k % cols)` with `k / cols < rows` and `k % cols < cols`;
and for every `i < rows`, `j < cols` the product `i * cols` and the sum `i * cols + j` of
`ij_to_k` fit in `size_t`, so that `ij_to_k (i, j, cols)` is `i * cols + j`, below
`rows * cols` (v5 and v4). -/
theorem index_maps_stay_inside (SIZE_MAX rows cols : Nat) (hrc : rows * cols ≤ SIZE_MAX) :
    (∀ k, k < rows * cols →
      cols ≠ 0 ∧
      V5.k_to_ij k cols = Except.ok (k / cols, k % cols) ∧
      V4.k_to_ij k cols = Except.ok (k / cols, k % cols) ∧
      k / cols < rows ∧ k % cols < cols) ∧
    (∀ i j, i < rows → j < cols →
      i * cols ≤ SIZE_MAX ∧ i * cols + j ≤ SIZE_MAX ∧
      V5.ij_to_k SIZE_MAX i j cols = i * cols + j ∧
      V4.ij_to_k SIZE_MAX i j cols = i * cols + j ∧
      V5.ij_to_k SIZE_MAX i j cols < rows * cols ∧
      V4.ij_to_k SIZE_MAX i j cols < rows * cols) := by
  constructor
  · intro k hk
    obtain ⟨hc, hi, hj, -⟩ := coord_of_index hk
    exact ⟨hc, V5.k_to_ij_eq _ _ hc, V4.v4_k_to_ij_eq _ _ hc, hi, hj⟩
  · intro i j hi hj
    have hlt := index_lt_of_coord hi hj
    have h5 := V5.ij_to_k_eq SIZE_MAX rows cols i j hrc hi hj
    have h4 := V4.v4_ij_to_k_eq SIZE_MAX rows cols i j hrc hi hj
    refine ⟨by omega, by omega, h5, h4, ?_, ?_⟩
    · rw [h5]; exact hlt
    · rw [h4]; exact hlt

/-- C19, on the 4 x 3 matrix of the v4 demo. -/
theorem index_maps_stay_inside_witness :
    4 * 3 ≤ lp64.SIZE_MAX ∧
    (∀ k, k < 4 * 3 →
      3 ≠ 0 ∧
      V5.k_to_ij k 3 = Except.ok (k / 3, k % 3) ∧
      V4.k_to_ij k 3 = Except.ok (k / 3, k % 3) ∧
      k / 3 < 4 ∧ k % 3 < 3) ∧
    (∀ i j, i < 4 → j < 3 →
      i * 3 ≤ lp64.SIZE_MAX ∧ i * 3 + j ≤ lp64.SIZE_MAX ∧
      V5.ij_to_k lp64.SIZE_MAX i j 3 = i * 3 + j ∧
      V4.ij_to_k lp64.SIZE_MAX i j 3 = i * 3 + j ∧
      V5.ij_to_k lp64.SIZE_MAX i j 3 < 4 * 3 ∧
      V4.ij_to_k lp64.SIZE_MAX i j 3 < 4 * 3) :=
  ⟨by decide, index_maps_stay_inside lp64.SIZE_MAX 4 3 (by decide)⟩


/-! ## The copies of the layout computation -/

theorem V2.v2_layout_eq_v5 (tgt : Target) (T : ElemType) (rows cols : Nat) (ha : 0 < T.align) :
    V2.layout tgt T rows cols = V5.layout tgt T rows cols := by
  simp only [V2.layout, V5.layout, V2.padding_eq_v5 _ _ ha]

theorem V2.v2_make_matrix_eq_v5 {α : Type} (tgt : Target) (T : ElemType) (answer : Nat → Nat)
    (rows cols : Nat) (heap : Heap α) (ha : 0 < T.align) :
    V2.make_matrix tgt T answer rows cols heap = V5.make_matrix tgt T answer rows cols heap := by
  unfold V2.make_matrix V5.make_matrix
  rw [V2.v2_layout_eq_v5 tgt T rows cols ha]

/-- With a non-zero alignment that is a `size_t`, `make_matrix` runs to its end. -/
theorem V5.make_matrix_total {α : Type} (tgt : Target) (T : ElemType) (answer : Nat → Nat)
    (rows cols : Nat) (heap : Heap α) (ha : 0 < T.align) (haM : T.align ≤ tgt.SIZE_MAX) :
    ∃ r, V5.make_matrix tgt T answer rows cols heap = Except.ok r ∧
      (V5.layout tgt T rows cols = Except.ok none → r = (⟨0⟩, heap)) ∧
      (∀ L, V5.layout tgt T rows cols = Except.ok (some L) →
        r.1.get = answer L.total ∧
        r.2.requests = heap.requests ++ [L.total] ∧
        (answer L.total = 0 →
          r.2.live = heap.live ∧ r.2.ptr_at = heap.ptr_at ∧ r.2.elem_at = heap.elem_at)) := by
  have hlay := V5.layout_eq tgt T rows cols ha haM
  generalize (if rows * tgt.ptr_size % T.align = 0 then 0
    else T.align - rows * tgt.ptr_size % T.align) = p at hlay
  by_cases hc : rows ≠ 0 ∧ cols ≠ 0 ∧ rows * tgt.ptr_size ≤ tgt.SIZE_MAX ∧
      rows * cols ≤ tgt.SIZE_MAX ∧ rows * cols * T.size ≤ tgt.SIZE_MAX ∧
      rows * tgt.ptr_size + p + rows * cols * T.size ≤ tgt.SIZE_MAX
  · rw [if_pos hc] at hlay
    refine ⟨_, V5.make_matrix_of_some tgt T answer rows cols heap _ hlay, ?_, ?_⟩
    · intro hn
      rw [hlay] at hn
      exact absurd (Except.ok.inj hn) (by simp)
    · intro L hL
      rw [hlay] at hL
      have hLe := Option.some.inj (Except.ok.inj hL)
      subst hLe
      by_cases h0 : answer (rows * tgt.ptr_size + p + rows * cols * T.size) = 0
      · simp [h0, Heap.malloc]
      · simp [h0, Heap.malloc, fill_rows_requests]
  · rw [if_neg hc] at hlay
    refine ⟨_, V5.make_matrix_of_none tgt T answer rows cols heap hlay, ?_, ?_⟩
    · intro _
      rfl
    · intro L hL
      rw [hlay] at hL
      exact absurd (Except.ok.inj hL) (by simp)

/-- C20: for an alignment `alignof (T) >= 1` that divides `sizeof (T*)`, the padding is zero
for every `rows` in all four files, and every layout that reaches `malloc` has
`padding == 0` and `header_pad == rows * sizeof (T*)`, so the data starts right after the row
table; a non-zero padding is computed only when `alignof (T)` does not divide
`sizeof (T*)`. -/
theorem padding_zero_when_align_divides_pointer (tgt : Target) (T : ElemType)
    (rows cols : Nat) (ha : 0 < T.align) (haM : T.align ≤ tgt.SIZE_MAX) :
    (T.align ∣ tgt.ptr_size →
      V5.padding (rows * tgt.ptr_size) T.align = Except.ok 0 ∧
      V4.padding (rows * tgt.ptr_size) T.align = Except.ok 0 ∧
      V2.padding (rows * tgt.ptr_size) T.align = Except.ok 0 ∧
      C.padding (rows * tgt.ptr_size) T.align = Except.ok 0 ∧
      ∀ L, (V5.layout tgt T rows cols = Except.ok (some L) ∨
            V4.layout tgt T rows cols = Except.ok (some L) ∨
            V2.layout tgt T rows cols = Except.ok (some L) ∨
            C.layout tgt T rows cols = Except.ok (some L)) →
        L.padding = 0 ∧ L.header_size = rows * tgt.ptr_size ∧
        L.header_pad = rows * tgt.ptr_size) ∧
    (∀ p, V5.padding (rows * tgt.ptr_size) T.align = Except.ok p → p ≠ 0 →
      ¬ T.align ∣ tgt.ptr_size) := by
  have hpad := V5.padding_eq (rows * tgt.ptr_size) T.align ha
  have hzero : T.align ∣ tgt.ptr_size → rows * tgt.ptr_size % T.align = 0 := by
    intro hd
    exact Nat.mod_eq_zero_of_dvd (Dvd.dvd.mul_left hd rows)
  constructor
  · intro hd
    have h0 := hzero hd
    rw [if_pos h0] at hpad
    refine ⟨hpad, ?_, ?_, ?_, ?_⟩
    · rw [V4.v4_padding_eq_v5]; exact hpad
    · rw [V2.padding_eq_v5 _ _ ha]; exact hpad
    · rw [C.c_padding_eq_v5]; exact hpad
    · intro L hL
      rw [V4.v4_layout_eq_v5, V2.v2_layout_eq_v5 tgt T rows cols ha, C.c_layout_eq_v5] at hL
      have hL5 : V5.layout tgt T rows cols = Except.ok (some L) := by
        rcases hL with h | h | h | h <;> exact h
      have hlay := V5.layout_eq tgt T rows cols ha haM
      rw [if_pos h0, hL5] at hlay
      have h := Except.ok.inj hlay
      split at h
      · have hLe := Option.some.inj h
        rw [hLe]
        exact ⟨rfl, rfl, rfl⟩
      · exact absurd h (by simp)
  · intro p hp hne hd
    rw [hpad, if_pos (hzero hd)] at hp
    exact hne (Except.ok.inj hp).symm

/-- C20, for `int` (aligned to 4) with 8-byte pointers. -/
theorem padding_zero_when_align_divides_pointer_witness :
    0 < int32.align ∧ int32.align ≤ lp64.SIZE_MAX ∧
    (int32.align ∣ lp64.ptr_size →
      V5.padding (3 * lp64.ptr_size) int32.align = Except.ok 0 ∧
      V4.padding (3 * lp64.ptr_size) int32.align = Except.ok 0 ∧
      V2.padding (3 * lp64.ptr_size) int32.align = Except.ok 0 ∧
      C.padding (3 * lp64.ptr_size) int32.align = Except.ok 0 ∧
      ∀ L, (V5.layout lp64 int32 3 2 = Except.ok (some L) ∨
            V4.layout lp64 int32 3 2 = Except.ok (some L) ∨
            V2.layout lp64 int32 3 2 = Except.ok (some L) ∨
            C.layout lp64 int32 3 2 = Except.ok (some L)) →
        L.padding = 0 ∧ L.header_size = 3 * lp64.ptr_size ∧
        L.header_pad = 3 * lp64.ptr_size) ∧
    (∀ p, V5.padding (3 * lp64.ptr_size) int32.align = Except.ok p → p ≠ 0 →
      ¬ int32.align ∣ lp64.ptr_size) :=
  ⟨by decide, by decide,
    padding_zero_when_align_divides_pointer lp64 int32 3 2 (by decide) (by decide)⟩

/-- C18: for every `rows`, `cols`, element size and alignment `a >= 1`, the layout
computations of v2, v4, v5 and `matrix.c` give the same outcome (the same fault-free
failure, or the same sizes, `header_pad` and `total`), `make_matrix` of v2 and v4 return the
same handle and leave the same heap (hence the same row table) as `make_matrix` of v5, and
`new_matrix` returns the address held by that handle and leaves the same heap. -/
theorem four_copies_agree {α : Type} (tgt : Target) (T : ElemType) (answer : Nat → Nat)
    (rows cols : Nat) (heap : Heap α) (ha : 1 ≤ T.align) :
    V2.padding (rows * tgt.ptr_size) T.align = V5.padding (rows * tgt.ptr_size) T.align ∧
    V2.layout tgt T rows cols = V5.layout tgt T rows cols ∧
    V4.layout tgt T rows cols = V5.layout tgt T rows cols ∧
    C.layout tgt T rows cols = V5.layout tgt T rows cols ∧
    V2.make_matrix tgt T answer rows cols heap = V5.make_matrix tgt T answer rows cols heap ∧
    V4.make_matrix tgt T answer rows cols heap = V5.make_matrix tgt T answer rows cols heap ∧
    C.new_matrix tgt T answer rows cols heap
      = (V5.make_matrix tgt T answer rows cols heap).map (fun r => (r.1.get, r.2)) :=
  ⟨V2.padding_eq_v5 _ _ ha, V2.v2_layout_eq_v5 tgt T rows cols ha, V4.v4_layout_eq_v5 tgt T rows cols,
    C.c_layout_eq_v5 tgt T rows cols, V2.v2_make_matrix_eq_v5 tgt T answer rows cols heap ha,
    V4.make_matrix_eq_v5 tgt T answer rows cols heap,
    C.new_matrix_eq_v5 tgt T answer rows cols heap⟩

/-- C18, for a `char` matrix (alignment 1, where v2 skips the remainder) with 5 rows. -/
theorem four_copies_agree_witness :
    1 ≤ (1 : Nat) ∧
    V2.padding (5 * lp64.ptr_size) 1 = V5.padding (5 * lp64.ptr_size) 1 ∧
    V2.layout lp64 ⟨1, 1⟩ 5 3 = V5.layout lp64 ⟨1, 1⟩ 5 3 ∧
    V4.layout lp64 ⟨1, 1⟩ 5 3 = V5.layout lp64 ⟨1, 1⟩ 5 3 ∧
    C.layout lp64 ⟨1, 1⟩ 5 3 = V5.layout lp64 ⟨1, 1⟩ 5 3 ∧
    V2.make_matrix lp64 ⟨1, 1⟩ (fun _ => 4096) 5 3 (Heap.empty (0 : Int))
      = V5.make_matrix lp64 ⟨1, 1⟩ (fun _ => 4096) 5 3 (Heap.empty (0 : Int)) ∧
    V4.make_matrix lp64 ⟨1, 1⟩ (fun _ => 4096) 5 3 (Heap.empty (0 : Int))
      = V5.make_matrix lp64 ⟨1, 1⟩ (fun _ => 4096) 5 3 (Heap.empty (0 : Int)) ∧
    C.new_matrix lp64 ⟨1, 1⟩ (fun _ => 4096) 5 3 (Heap.empty (0 : Int))
      = (V5.make_matrix lp64 ⟨1, 1⟩ (fun _ => 4096) 5 3 (Heap.empty (0 : Int))).map
          (fun r => (r.1.get, r.2)) :=
  ⟨by decide, four_copies_agree lp64 ⟨1, 1⟩ (fun _ => 4096) 5 3 (Heap.empty (0 : Int))
    (by decide)⟩


/-- C14 fails as stated: with `rows = 2^60` and `cols = 2` of `int` on a 64-bit target,
`rows * cols * sizeof (int) = 2^63` fits in `size_t`, yet the layout computation takes a
failure return (the total `2^63 + 2^63` does not fit), and `make_matrix` and `new_matrix`
return null without asking `malloc`, which would have granted the request. -/
theorem representable_data_size_not_sufficient :
    0 < 2 ^ 60 ∧ 0 < 2 ∧ 2 ^ 60 * 2 * int32.size ≤ lp64.SIZE_MAX ∧
    V5.layout lp64 int32 (2 ^ 60) 2 = Except.ok none ∧
    C.layout lp64 float32 (2 ^ 60) 2 = Except.ok none ∧
    (V5.make_matrix lp64 int32 (fun _ => 4096) (2 ^ 60) 2 (Heap.empty (0 : Int))).map
        (fun r => (r.1.get, r.2.requests)) = Except.ok (0, []) ∧
    (C.new_matrix lp64 float32 (fun _ => 4096) (2 ^ 60) 2 (Heap.empty (0 : Int))).map
        (fun r => (r.1, r.2.requests)) = Except.ok (0, []) := by
  decide

/-- C14, amended: for `rows > 0` and `cols > 0` such that the whole block size
`rows * sizeof (T*) + padding + rows * cols * sizeof (T)` fits in `size_t`, the layout
computation takes no failure return: `make_matrix` and `new_matrix` ask `malloc` for that
size once and return what it answers, a non-null handle whenever the request is granted. -/
theorem make_matrix_succeeds_when_block_fits {α : Type} (tgt : Target) (T : ElemType)
    (answer : Nat → Nat) (rows cols : Nat) (heap : Heap α)
    (hs : 1 ≤ T.size) (ha : 0 < T.align) (haM : T.align ≤ tgt.SIZE_MAX)
    (hr : 0 < rows) (hc : 0 < cols) (p : Nat)
    (hp : V5.padding (rows * tgt.ptr_size) T.align = Except.ok p)
    (hfit : rows * tgt.ptr_size + p + rows * cols * T.size ≤ tgt.SIZE_MAX) :
    ∃ r, V5.make_matrix tgt T answer rows cols heap = Except.ok r ∧
      C.new_matrix tgt T answer rows cols heap = Except.ok (r.1.get, r.2) ∧
      V5.layout tgt T rows cols = Except.ok (some
        ⟨rows * tgt.ptr_size, rows * cols, rows * cols * T.size, p,
          rows * tgt.ptr_size + p, rows * tgt.ptr_size + p + rows * cols * T.size⟩) ∧
      r.1.get = answer (rows * tgt.ptr_size + p + rows * cols * T.size) ∧
      r.2.requests = heap.requests ++ [rows * tgt.ptr_size + p + rows * cols * T.size] ∧
      (answer (rows * tgt.ptr_size + p + rows * cols * T.size) ≠ 0 → r.1.get ≠ 0) := by
  have hlay := V5.layout_of_size_pos tgt T rows cols hs ha haM p hp
  rw [if_pos ⟨hr, hc, hfit⟩] at hlay
  obtain ⟨r, hok, -, hsome⟩ := V5.make_matrix_total tgt T answer rows cols heap ha haM
  obtain ⟨h1, h2, -⟩ := hsome _ hlay
  refine ⟨r, hok, ?_, hlay, h1, h2, ?_⟩
  · rw [C.new_matrix_eq_v5, hok]
    rfl
  · intro hne
    rw [h1]
    exact hne

/-- C14, amended, on the 3 x 2 `int` matrix. -/
theorem make_matrix_succeeds_when_block_fits_witness :
    1 ≤ int32.size ∧ 0 < int32.align ∧ int32.align ≤ lp64.SIZE_MAX ∧ 0 < 3 ∧ 0 < 2 ∧
    V5.padding (3 * lp64.ptr_size) int32.align = Except.ok 0 ∧
    3 * lp64.ptr_size + 0 + 3 * 2 * int32.size ≤ lp64.SIZE_MAX ∧
    ∃ r, V5.make_matrix lp64 int32 (fun _ => 4096) 3 2 (Heap.empty (0 : Int)) = Except.ok r ∧
      C.new_matrix lp64 int32 (fun _ => 4096) 3 2 (Heap.empty (0 : Int))
        = Except.ok (r.1.get, r.2) ∧
      V5.layout lp64 int32 3 2 = Except.ok (some
        ⟨3 * lp64.ptr_size, 3 * 2, 3 * 2 * int32.size, 0,
          3 * lp64.ptr_size + 0, 3 * lp64.ptr_size + 0 + 3 * 2 * int32.size⟩) ∧
      r.1.get = (fun _ => 4096) (3 * lp64.ptr_size + 0 + 3 * 2 * int32.size) ∧
      r.2.requests = (Heap.empty (0 : Int)).requests
        ++ [3 * lp64.ptr_size + 0 + 3 * 2 * int32.size] ∧
      ((fun _ => 4096) (3 * lp64.ptr_size + 0 + 3 * 2 * int32.size) ≠ 0 → r.1.get ≠ 0) :=
  ⟨by decide, by decide, by decide, by decide, by decide, by decide, by decide,
    make_matrix_succeeds_when_block_fits lp64 int32 (fun _ => 4096) 3 2 (Heap.empty (0 : Int))
      (by decide) (by decide) (by decide) (by decide) (by decide) 0 (by decide) (by decide)⟩

/-- C15: for a non-zero alignment that is a `size_t` and non-empty pointers, `make_matrix`
(and `new_matrix`, which returns the same address and heap) runs to its end having asked
`malloc` at most once.  When it returns null, the live blocks and the memory are those it
found: nothing it allocated is outstanding.  When it returns a handle, exactly one block,
the one at that address with the requested size, has been added to the live blocks, and
all `rows` entries of the row table have been written. -/
theorem make_matrix_all_or_nothing {α : Type} (tgt : Target) (T : ElemType)
    (answer : Nat → Nat) (rows cols : Nat) (heap : Heap α)
    (ha : 0 < T.align) (haM : T.align ≤ tgt.SIZE_MAX) (hp : 0 < tgt.ptr_size) :
    ∃ r, V5.make_matrix tgt T answer rows cols heap = Except.ok r ∧
      C.new_matrix tgt T answer rows cols heap = Except.ok (r.1.get, r.2) ∧
      (r.2.requests = heap.requests ∨ ∃ total, r.2.requests = heap.requests ++ [total]) ∧
      (r.1.get = 0 →
        r.2.live = heap.live ∧ r.2.ptr_at = heap.ptr_at ∧ r.2.elem_at = heap.elem_at) ∧
      (r.1.get ≠ 0 →
        ∃ L : Layout, V5.layout tgt T rows cols = Except.ok (some L) ∧
          r.2.requests = heap.requests ++ [L.total] ∧
          r.2.live = (r.1.get, L.total) :: heap.live ∧
          r.2.elem_at = heap.elem_at ∧
          ∀ i, i < rows →
            r.2.ptr_at (r.1.get + i * tgt.ptr_size)
              = r.1.get + L.header_pad + i * cols * T.size) := by
  obtain ⟨r, hok, hnone, hsome⟩ := V5.make_matrix_total tgt T answer rows cols heap ha haM
  refine ⟨r, hok, ?_, ?_, ?_, ?_⟩
  · rw [C.new_matrix_eq_v5, hok]
    rfl
  · cases hl : V5.layout tgt T rows cols with
    | error e =>
      have h := V5.layout_eq tgt T rows cols ha haM
      rw [hl] at h
      exact Except.noConfusion h
    | ok o =>
      cases o with
      | none =>
        rw [hnone hl]
        exact Or.inl rfl
      | some L => exact Or.inr ⟨L.total, (hsome L hl).2.1⟩
  · intro h0
    cases hl : V5.layout tgt T rows cols with
    | error e =>
      have h := V5.layout_eq tgt T rows cols ha haM
      rw [hl] at h
      exact Except.noConfusion h
    | ok o =>
      cases o with
      | none =>
        rw [hnone hl]
        exact ⟨rfl, rfl, rfl⟩
      | some L =>
        obtain ⟨h1, -, h3⟩ := hsome L hl
        exact h3 (by rw [← h1]; exact h0)
  · intro hnn
    obtain ⟨L, hlay, -, -, -, -, -, -, -, -, -, hrc, -, hans, hheap⟩ :=
      V5.make_matrix_success tgt T answer rows cols heap r hok hnn ha haM
    refine ⟨L, hlay, ?_, ?_, ?_, ?_⟩
    · rw [hheap, fill_rows_requests]
      rfl
    · rw [hheap, fill_rows_live]
      simp [Heap.malloc, hans, hnn]
    · rw [hheap, fill_rows_elem_at]
      rfl
    · intro i hi
      have hic : i * cols ≤ tgt.SIZE_MAX :=
        Nat.le_trans (Nat.mul_le_mul_right cols (Nat.le_of_lt hi)) hrc
      have h := fill_rows_ptr_at tgt T r.1.get (r.1.get + L.header_pad) rows cols
        (heap.malloc answer L.total).2 hp i hi
      rw [← hheap, wrap_of_le hic] at h
      exact h

/-- C15, on the 3 x 2 `int` matrix when `malloc` refuses the request. -/
theorem make_matrix_all_or_nothing_witness :
    0 < int32.align ∧ int32.align ≤ lp64.SIZE_MAX ∧ 0 < lp64.ptr_size ∧
    ∃ r, V5.make_matrix lp64 int32 (fun _ => 0) 3 2 (Heap.empty (0 : Int)) = Except.ok r ∧
      C.new_matrix lp64 int32 (fun _ => 0) 3 2 (Heap.empty (0 : Int))
        = Except.ok (r.1.get, r.2) ∧
      (r.2.requests = (Heap.empty (0 : Int)).requests ∨
        ∃ total, r.2.requests = (Heap.empty (0 : Int)).requests ++ [total]) ∧
      (r.1.get = 0 →
        r.2.live = (Heap.empty (0 : Int)).live ∧ r.2.ptr_at = (Heap.empty (0 : Int)).ptr_at ∧
        r.2.elem_at = (Heap.empty (0 : Int)).elem_at) ∧
      (r.1.get ≠ 0 →
        ∃ L : Layout, V5.layout lp64 int32 3 2 = Except.ok (some L) ∧
          r.2.requests = (Heap.empty (0 : Int)).requests ++ [L.total] ∧
          r.2.live = (r.1.get, L.total) :: (Heap.empty (0 : Int)).live ∧
          r.2.elem_at = (Heap.empty (0 : Int)).elem_at ∧
          ∀ i, i < 3 →
            r.2.ptr_at (r.1.get + i * lp64.ptr_size)
              = r.1.get + L.header_pad + i * 2 * int32.size) :=
  ⟨by decide, by decide, by decide,
    make_matrix_all_or_nothing lp64 int32 (fun _ => 0) 3 2 (Heap.empty (0 : Int))
      (by decide) (by decide) (by decide)⟩


/-! ## The loops of the demo -/

theorem mul_size_ne {s x y : Nat} (hs : 1 ≤ s) (hxy : x ≠ y) : x * s ≠ y * s := by
  intro h
  exact hxy (Nat.eq_of_mul_eq_mul_right (by omega) h)

/-- One row of the fill loop: the `n` first elements of row `i` are written, nothing else
changes. -/
theorem fill_row_spec {α : Type} (tgt : Target) (T : ElemType) (f : Nat → α)
    (mat : unique_ptr) (i : Nat) (hs : 1 ≤ T.size) (h : Heap α) (n : Nat) :
    ((List.range n).foldl (fun h2 j => row_write tgt T h2 mat i j (f j)) h).ptr_at = h.ptr_at ∧
    ((List.range n).foldl (fun h2 j => row_write tgt T h2 mat i j (f j)) h).live = h.live ∧
    ((List.range n).foldl (fun h2 j => row_write tgt T h2 mat i j (f j)) h).requests
      = h.requests ∧
    (∀ j, j < n →
      ((List.range n).foldl (fun h2 j => row_write tgt T h2 mat i j (f j)) h).elem_at
        (h.ptr_at (mat.get + i * tgt.ptr_size) + j * T.size) = f j) ∧
    (∀ a, (∀ j, j < n → a ≠ h.ptr_at (mat.get + i * tgt.ptr_size) + j * T.size) →
      ((List.range n).foldl (fun h2 j => row_write tgt T h2 mat i j (f j)) h).elem_at a
        = h.elem_at a) := by
  induction n with
  | zero =>
    refine ⟨rfl, rfl, rfl, ?_, ?_⟩
    · intro j hj
      omega
    · intro a _
      rfl
  | succ n ih =>
    obtain ⟨ihp, ihl, ihr, ihhit, ihmiss⟩ := ih
    rw [List.range_succ, List.foldl_append]
    generalize (List.range n).foldl (fun h2 j => row_write tgt T h2 mat i j (f j)) h = H
      at ihp ihl ihr ihhit ihmiss
    simp only [List.foldl_cons, List.foldl_nil]
    have hstore : ∀ a, (row_write tgt T H mat i n (f n)).elem_at a
        = if a = h.ptr_at (mat.get + i * tgt.ptr_size) + n * T.size then f n
          else H.elem_at a := by
      intro a
      unfold row_write elem_addr Heap.store_elem
      rw [ihp]
    refine ⟨ihp, ihl, ihr, ?_, ?_⟩
    · intro j hj
      rw [hstore]
      by_cases hjn : j = n
      · subst hjn
        rw [if_pos rfl]
      · have hne := mul_size_ne hs hjn
        rw [if_neg (by omega)]
        exact ihhit j (by omega)
    · intro a ha
      rw [hstore, if_neg (ha n (by omega))]
      exact ihmiss a (fun j hj => ha j (by omega))

/-- The fill loop on a matrix whose row `i` starts at `D + i * cols * sizeof (T)`: after `n`
rows, element `(i, j)` of the first `n` rows holds `f i j`, nothing else changes. -/
theorem V5.fill_spec {α : Type} (tgt : Target) (T : ElemType) (f : Nat → Nat → α)
    (mat : unique_ptr) (rows cols D : Nat) (hs : 1 ≤ T.size) (h : Heap α)
    (htab : ∀ i, i < rows → h.ptr_at (mat.get + i * tgt.ptr_size) = D + i * cols * T.size)
    (n : Nat) (hn : n ≤ rows) :
    (V5.fill tgt T f mat n cols h).ptr_at = h.ptr_at ∧
    (V5.fill tgt T f mat n cols h).live = h.live ∧
    (V5.fill tgt T f mat n cols h).requests = h.requests ∧
    (∀ i j, i < n → j < cols →
      (V5.fill tgt T f mat n cols h).elem_at (D + (i * cols + j) * T.size) = f i j) ∧
    (∀ a, (∀ i j, i < n → j < cols → a ≠ D + (i * cols + j) * T.size) →
      (V5.fill tgt T f mat n cols h).elem_at a = h.elem_at a) := by
  induction n with
  | zero =>
    refine ⟨rfl, rfl, rfl, ?_, ?_⟩
    · intro i j hi
      omega
    · intro a _
      rfl
  | succ n ih =>
    obtain ⟨ihp, ihl, ihr, ihhit, ihmiss⟩ := ih (by omega)
    have hstep : V5.fill tgt T f mat (n + 1) cols h
        = (List.range cols).foldl (fun h2 j => row_write tgt T h2 mat n j (f n j))
            (V5.fill tgt T f mat n cols h) := by
      unfold V5.fill
      rw [List.range_succ, List.foldl_append]
      rfl
    rw [hstep]
    obtain ⟨rp, rl, rr, rhit, rmiss⟩ :=
      fill_row_spec tgt T (f n) mat n hs (V5.fill tgt T f mat n cols h) cols
    generalize V5.fill tgt T f mat n cols h = H at ihp ihl ihr ihhit ihmiss rp rl rr rhit rmiss
    have hB : H.ptr_at (mat.get + n * tgt.ptr_size) = D + n * cols * T.size := by
      rw [ihp]
      exact htab n (by omega)
    rw [hB] at rhit rmiss
    have haddr : ∀ i j, D + (i * cols + j) * T.size = D + i * cols * T.size + j * T.size := by
      intro i j
      rw [Nat.add_mul, Nat.add_assoc]
    refine ⟨rp.trans ihp, rl.trans ihl, rr.trans ihr, ?_, ?_⟩
    · intro i j hi hj
      by_cases hin : i = n
      · subst hin
        rw [haddr]
        exact rhit j hj
      · have hlt : i < n := by omega
        rw [rmiss]
        · exact ihhit i j hlt hj
        · intro j' _
          rw [← haddr]
          have h1 : i * cols + j < n * cols := index_lt_of_coord hlt hj
          have h2 : (i * cols + j) * T.size < (n * cols + j') * T.size :=
            Nat.mul_lt_mul_of_pos_right (by omega) (by omega)
          omega
    · intro a ha
      rw [rmiss]
      · exact ihmiss a (fun i j hi hj => ha i j (by omega) hj)
      · intro j hj
        rw [← haddr]
        exact ha n j (by omega) hj

/-- The update loop over a span: each of the `n` first elements is replaced by its image
under `g`, nothing else changes. -/
theorem V5.for_each_spec {α : Type} (D : Nat) (T : ElemType) (g : α → α) (hs : 1 ≤ T.size)
    (h : Heap α) (n : Nat) :
    (V5.Span.for_each ⟨D, n⟩ T g h).ptr_at = h.ptr_at ∧
    (V5.Span.for_each ⟨D, n⟩ T g h).live = h.live ∧
    (V5.Span.for_each ⟨D, n⟩ T g h).requests = h.requests ∧
    (∀ k, k < n →
      (V5.Span.for_each ⟨D, n⟩ T g h).elem_at (D + k * T.size) = g (h.elem_at (D + k * T.size))) ∧
    (∀ a, (∀ k, k < n → a ≠ D + k * T.size) →
      (V5.Span.for_each ⟨D, n⟩ T g h).elem_at a = h.elem_at a) := by
  induction n with
  | zero =>
    refine ⟨rfl, rfl, rfl, ?_, ?_⟩
    · intro k hk
      omega
    · intro a _
      rfl
  | succ n ih =>
    obtain ⟨ihp, ihl, ihr, ihhit, ihmiss⟩ := ih
    have hstep : V5.Span.for_each ⟨D, n + 1⟩ T g h
        = (V5.Span.for_each ⟨D, n⟩ T g h).store_elem (D + n * T.size)
            (g ((V5.Span.for_each ⟨D, n⟩ T g h).elem_at (D + n * T.size))) := by
      unfold V5.Span.for_each
      simp only [List.range_succ, List.foldl_append, List.foldl_cons, List.foldl_nil]
    rw [hstep]
    generalize V5.Span.for_each ⟨D, n⟩ T g h = H at ihp ihl ihr ihhit ihmiss
    have hstore : ∀ a, (H.store_elem (D + n * T.size) (g (H.elem_at (D + n * T.size)))).elem_at a
        = if a = D + n * T.size then g (H.elem_at (D + n * T.size)) else H.elem_at a :=
      fun _ => rfl
    refine ⟨ihp, ihl, ihr, ?_, ?_⟩
    · intro k hk
      rw [hstore]
      by_cases hkn : k = n
      · subst hkn
        rw [if_pos rfl, ihmiss]
        intro k' hk'
        have hne := mul_size_ne hs (Nat.ne_of_gt hk')
        omega
      · have hne := mul_size_ne hs hkn
        rw [if_neg (by omega)]
        exact ihhit k (by omega)
    · intro a ha
      rw [hstore, if_neg (ha n (by omega))]
      exact ihmiss a (fun k hk => ha k (by omega))


theorem V5.check_loop_ok {α : Type} [DecidableEq α] (tgt : Target) (T : ElemType)
    (flat : V5.Span) (mat : unique_ptr) (C : Nat) (heap : Heap α) (hC : C ≠ 0) (ks : List Nat)
    (hks : ∀ k, k ∈ ks → flat.index T heap k = row_read tgt T heap mat (k / C) (k % C)) :
    V5.check_loop tgt T flat mat C heap ks = Except.ok () := by
  induction ks with
  | nil => rfl
  | cons k ks ih =>
    unfold V5.check_loop
    rw [V5.k_to_ij_eq k C hC]
    simp only
    rw [if_pos (hks k (List.mem_cons_self k ks))]
    exact ih (fun k' hk' => hks k' (List.mem_cons_of_mem k hk'))

/-- The demo on any matrix: after a successful `make_matrix`, the fill loop with values
`f i j` and the update loop with `g` over the flat view leave `f i j`, then `g (f i j)`, in
element `(i, j)`, seen alike through the rows and through the flat view. -/
theorem V5.demo_spec {α : Type} [DecidableEq α] (tgt : Target) (T : ElemType)
    (answer : Nat → Nat) (rows cols : Nat) (heap : Heap α) (r : unique_ptr × Heap α)
    (hok : V5.make_matrix tgt T answer rows cols heap = Except.ok r) (hnn : r.1.get ≠ 0)
    (ha : 0 < T.align) (haM : T.align ≤ tgt.SIZE_MAX) (hp : 0 < tgt.ptr_size)
    (hs : 1 ≤ T.size) (f : Nat → Nat → α) (g : α → α) (h1 h2 : Heap α)
    (hh1 : h1 = V5.fill tgt T f r.1 rows cols r.2)
    (hh2 : h2 = (V5.matriz_span tgt h1 r.1 rows cols).for_each T g h1) :
    ∃ D, V5.matriz_span tgt h1 r.1 rows cols = ⟨D, rows * cols⟩ ∧
      V5.matriz_cspan tgt h2 r.1 rows cols = ⟨D, rows * cols⟩ ∧
      (∀ i j, i < rows → j < cols →
        row_read tgt T h1 r.1 i j = f i j ∧ row_read tgt T h2 r.1 i j = g (f i j)) ∧
      (∀ k, k < rows * cols →
        V5.Span.index ⟨D, rows * cols⟩ T h1 k = f (k / cols) (k % cols) ∧
        V5.Span.index ⟨D, rows * cols⟩ T h2 k = g (f (k / cols) (k % cols))) ∧
      V5.check_loop tgt T ⟨D, rows * cols⟩ r.1 cols h2 (List.range (rows * cols))
        = Except.ok () ∧
      h2.live = r.2.live ∧ h2.requests = r.2.requests ∧ h2.ptr_at = r.2.ptr_at := by
  obtain ⟨L, -, -, -, -, -, -, -, -, hr0, hc0, hrc, -, -, hheap⟩ :=
    V5.make_matrix_success tgt T answer rows cols heap r hok hnn ha haM
  have htab : ∀ i, i < rows →
      r.2.ptr_at (r.1.get + i * tgt.ptr_size) = r.1.get + L.header_pad + i * cols * T.size := by
    intro i hi
    have hic : i * cols ≤ tgt.SIZE_MAX :=
      Nat.le_trans (Nat.mul_le_mul_right cols (Nat.le_of_lt hi)) hrc
    have h := fill_rows_ptr_at tgt T r.1.get (r.1.get + L.header_pad) rows cols
      (heap.malloc answer L.total).2 hp i hi
    rw [← hheap, wrap_of_le hic] at h
    exact h
  obtain ⟨fp, fl, fr, fhit, -⟩ :=
    V5.fill_spec tgt T f r.1 rows cols (r.1.get + L.header_pad) hs r.2 htab rows (Nat.le_refl _)
  rw [← hh1] at fp fl fr fhit
  have hspan1 : V5.matriz_span tgt h1 r.1 rows cols
      = ⟨r.1.get + L.header_pad, rows * cols⟩ := by
    unfold V5.matriz_span
    rw [if_pos hnn, fp, htab 0 (Nat.pos_of_ne_zero hr0), wrap_of_le hrc]
    simp
  rw [hspan1] at hh2
  obtain ⟨gp, gl, gr, ghit, -⟩ :=
    V5.for_each_spec (r.1.get + L.header_pad) T g hs h1 (rows * cols)
  rw [← hh2] at gp gl gr ghit
  have hspan2 : V5.matriz_cspan tgt h2 r.1 rows cols
      = ⟨r.1.get + L.header_pad, rows * cols⟩ := by
    unfold V5.matriz_cspan
    rw [if_pos hnn, gp, fp, htab 0 (Nat.pos_of_ne_zero hr0), wrap_of_le hrc]
    simp
  have hrow1 : ∀ i j, i < rows →
      row_read tgt T h1 r.1 i j = h1.elem_at (r.1.get + L.header_pad + (i * cols + j) * T.size) := by
    intro i j hi
    unfold row_read elem_addr
    rw [fp, htab i hi, Nat.add_mul, Nat.add_assoc (r.1.get + L.header_pad)]
  have hrow2 : ∀ i j, i < rows →
      row_read tgt T h2 r.1 i j = h2.elem_at (r.1.get + L.header_pad + (i * cols + j) * T.size) := by
    intro i j hi
    unfold row_read elem_addr
    rw [gp, fp, htab i hi, Nat.add_mul, Nat.add_assoc (r.1.get + L.header_pad)]
  have hcell : ∀ i j, i < rows → j < cols →
      row_read tgt T h1 r.1 i j = f i j ∧ row_read tgt T h2 r.1 i j = g (f i j) := by
    intro i j hi hj
    rw [hrow1 i j hi, hrow2 i j hi, ghit _ (index_lt_of_coord hi hj), fhit i j hi hj]
    exact ⟨rfl, rfl⟩
  have hflat : ∀ k, k < rows * cols →
      V5.Span.index ⟨r.1.get + L.header_pad, rows * cols⟩ T h1 k = f (k / cols) (k % cols) ∧
      V5.Span.index ⟨r.1.get + L.header_pad, rows * cols⟩ T h2 k
        = g (f (k / cols) (k % cols)) := by
    intro k hk
    obtain ⟨-, hi, hj, hdm⟩ := coord_of_index hk
    have h := fhit (k / cols) (k % cols) hi hj
    rw [hdm] at h
    unfold V5.Span.index
    simp only
    rw [ghit k hk, h]
    exact ⟨rfl, rfl⟩
  refine ⟨r.1.get + L.header_pad, hspan1, hspan2, hcell, hflat, ?_, gl.trans fl, gr.trans fr,
    gp.trans fp⟩
  apply V5.check_loop_ok tgt T _ r.1 cols h2 hc0
  intro k hk
  have hk' : k < rows * cols := List.mem_range.mp hk
  obtain ⟨-, hi, hj, -⟩ := coord_of_index hk'
  rw [(hflat k hk').2, (hcell _ _ hi hj).2]


/-- The demo of v5 on a matrix that `make_matrix<int> (3, 2)` has built: what `main` prints
and returns, with `h1` and `h2` the heaps after the fill loop and after the update loop. -/
theorem V5.main_of_demo (answer : Nat → Nat) (heap : Heap Int) (r : unique_ptr × Heap Int)
    (hok : V5.make_matrix lp64 int32 answer 3 2 heap = Except.ok r) (hnn : r.1.get ≠ 0)
    (h1 h2 : Heap Int)
    (hh1 : h1 = V5.fill lp64 int32
      (fun i j => int_of_size (wrap lp64.SIZE_MAX (wrap lp64.SIZE_MAX (10 * i) + j)))
      r.1 3 2 r.2)
    (hh2 : h2 = (V5.matriz_span lp64 h1 r.1 3 2).for_each int32 (fun x => x * 2) h1) :
    V5.print_rows lp64 int32 h1 r.1 3 2 = [0, 1, 10, 11, 20, 21] ∧
    V5.print_flat (V5.matriz_span lp64 h1 r.1 3 2) int32 h1 = [0, 1, 10, 11, 20, 21] ∧
    V5.print_flat (V5.matriz_cspan lp64 h2 r.1 3 2) int32 h2 = [0, 2, 20, 22, 40, 42] ∧
    V5.print_rows lp64 int32 h2 r.1 3 2 = [0, 2, 20, 22, 40, 42] ∧
    row_read lp64 int32 h2 r.1 1 0 = 20 ∧
    h2.live = r.2.live ∧ h2.requests = r.2.requests ∧
    V5.main lp64 int32 answer heap = Except.ok (0, r.1,
      [0, 1, 10, 11, 20, 21, 0, 2, 20, 22, 40, 42, 0, 2, 20, 22, 40, 42], h2) := by
  obtain ⟨D, hs1, hs2, hcell, hflat, hchk, hlive, hreq, -⟩ :=
    V5.demo_spec lp64 int32 answer 3 2 heap r hok hnn (by decide) (by decide) (by decide)
      (by decide)
      (fun i j => int_of_size (wrap lp64.SIZE_MAX (wrap lp64.SIZE_MAX (10 * i) + j)))
      (fun x => x * 2) h1 h2 hh1 hh2
  have hp1 : V5.print_rows lp64 int32 h1 r.1 3 2 = [0, 1, 10, 11, 20, 21] := by
    have h : V5.print_rows lp64 int32 h1 r.1 3 2
        = (List.range 3).flatMap (fun i => (List.range 2).map (fun j =>
            int_of_size (wrap lp64.SIZE_MAX (wrap lp64.SIZE_MAX (10 * i) + j)))) :=
      List.flatMap_congr (fun i hi => List.map_congr_left (fun j hj =>
        (hcell i j (List.mem_range.mp hi) (List.mem_range.mp hj)).1))
    rw [h]
    decide
  have hp2 : V5.print_rows lp64 int32 h2 r.1 3 2 = [0, 2, 20, 22, 40, 42] := by
    have h : V5.print_rows lp64 int32 h2 r.1 3 2
        = (List.range 3).flatMap (fun i => (List.range 2).map (fun j =>
            int_of_size (wrap lp64.SIZE_MAX (wrap lp64.SIZE_MAX (10 * i) + j)) * 2)) :=
      List.flatMap_congr (fun i hi => List.map_congr_left (fun j hj =>
        (hcell i j (List.mem_range.mp hi) (List.mem_range.mp hj)).2))
    rw [h]
    decide
  have hf1 : V5.print_flat (V5.matriz_span lp64 h1 r.1 3 2) int32 h1
      = [0, 1, 10, 11, 20, 21] := by
    rw [hs1]
    have h : V5.print_flat ⟨D, 3 * 2⟩ int32 h1
        = (List.range (3 * 2)).map (fun k =>
            int_of_size (wrap lp64.SIZE_MAX (wrap lp64.SIZE_MAX (10 * (k / 2)) + k % 2))) :=
      List.map_congr_left (fun k hk => (hflat k (List.mem_range.mp hk)).1)
    rw [h]
    decide
  have hf2 : V5.print_flat (V5.matriz_cspan lp64 h2 r.1 3 2) int32 h2
      = [0, 2, 20, 22, 40, 42] := by
    rw [hs2]
    have h : V5.print_flat ⟨D, 3 * 2⟩ int32 h2
        = (List.range (3 * 2)).map (fun k =>
            int_of_size (wrap lp64.SIZE_MAX (wrap lp64.SIZE_MAX (10 * (k / 2)) + k % 2)) * 2) :=
      List.map_congr_left (fun k hk => (hflat k (List.mem_range.mp hk)).2)
    rw [h]
    decide
  have hr10 : row_read lp64 int32 h2 r.1 1 0 = 20 := by
    rw [(hcell 1 0 (by decide) (by decide)).2]
    decide
  refine ⟨hp1, hf1, hf2, hp2, hr10, hlive, hreq, ?_⟩
  unfold V5.main
  rw [hok]
  simp only [if_neg hnn, ← hh1]
  simp only [← hh2]
  rw [hf2, hp1, hp2, hs1]
  simp only
  rw [hchk]
  rfl

/-! ## Views of a built matrix -/

/-- On any memory that keeps the row table of a successful `make_matrix`, the flat views
start at the data segment and a row access reads the data segment in row-major order. -/
theorem V5.views_of_built {α : Type} (tgt : Target) (T : ElemType) (answer : Nat → Nat)
    (rows cols : Nat) (heap : Heap α) (r : unique_ptr × Heap α)
    (hok : V5.make_matrix tgt T answer rows cols heap = Except.ok r) (hnn : r.1.get ≠ 0)
    (ha : 0 < T.align) (haM : T.align ≤ tgt.SIZE_MAX) (hp : 0 < tgt.ptr_size) :
    ∃ D, D ≠ 0 ∧ cols ≠ 0 ∧ rows * cols ≤ tgt.SIZE_MAX ∧
      ∀ mem : Heap α,
        (∀ i, i < rows →
          mem.ptr_at (r.1.get + i * tgt.ptr_size) = r.2.ptr_at (r.1.get + i * tgt.ptr_size)) →
        V5.matriz_span tgt mem r.1 rows cols = ⟨D, rows * cols⟩ ∧
        V5.matriz_cspan tgt mem r.1 rows cols = ⟨D, rows * cols⟩ ∧
        V4.matriz_as_range tgt mem r.1 rows cols = Except.ok ⟨D, rows * cols⟩ ∧
        V4.matriz_as_crange tgt mem r.1 rows cols = Except.ok ⟨D, rows * cols⟩ ∧
        ∀ i j, i < rows →
          elem_addr tgt T mem r.1.get i j = D + (i * cols + j) * T.size := by
  obtain ⟨L, -, -, -, -, -, -, -, -, hr0, hc0, hrc, -, -, hheap⟩ :=
    V5.make_matrix_success tgt T answer rows cols heap r hok hnn ha haM
  refine ⟨r.1.get + L.header_pad, by omega, hc0, hrc, ?_⟩
  intro mem hmem
  have hrow : ∀ i, i < rows →
      mem.ptr_at (r.1.get + i * tgt.ptr_size)
        = r.1.get + L.header_pad + i * cols * T.size := by
    intro i hi
    have hic : i * cols ≤ tgt.SIZE_MAX :=
      Nat.le_trans (Nat.mul_le_mul_right cols (Nat.le_of_lt hi)) hrc
    have h := fill_rows_ptr_at tgt T r.1.get (r.1.get + L.header_pad) rows cols
      (heap.malloc answer L.total).2 hp i hi
    rw [← hheap, wrap_of_le hic] at h
    rw [hmem i hi, h]
  have hfirst : mem.ptr_at (r.1.get + 0 * tgt.ptr_size) = r.1.get + L.header_pad := by
    have h := hrow 0 (Nat.pos_of_ne_zero hr0)
    simpa using h
  have hfirst0 : mem.ptr_at (r.1.get + 0 * tgt.ptr_size) ≠ 0 := by
    rw [hfirst]
    omega
  have hspan : V5.matriz_span tgt mem r.1 rows cols
      = ⟨r.1.get + L.header_pad, rows * cols⟩ := by
    unfold V5.matriz_span
    rw [if_pos hnn, hfirst, wrap_of_le hrc]
  have hrange : V4.matriz_as_range tgt mem r.1 rows cols
      = Except.ok ⟨r.1.get + L.header_pad, rows * cols⟩ := by
    unfold V4.matriz_as_range
    rw [if_neg hnn, if_neg hfirst0, hfirst, wrap_of_le hrc]
  refine ⟨hspan, hspan, hrange, hrange, ?_⟩
  intro i j hi
  unfold elem_addr
  rw [hrow i hi, Nat.add_mul, Nat.add_assoc (r.1.get + L.header_pad)]

/-- C12: take a matrix built by a successful `make_matrix<T> (rows, cols)` and any memory
`mem` that keeps its row table.  A write of `v` through the flat view (the span of v5 or
the range of v4) at `k < rows * cols` is read back by `table[k / cols][k % cols]`; a write
of `v` through `table[i][j]`, `i < rows`, `j < cols`, is read back by `flat[i * cols + j]`;
neither write changes the row table, so the views taken afterwards are the same; and, for
`sizeof (T) >= 1`, a write at `k` leaves every other element `k'` as it was, through both
views. -/
theorem writes_shared_by_views {α : Type} (tgt : Target) (T : ElemType) (answer : Nat → Nat)
    (rows cols : Nat) (heap : Heap α) (r : unique_ptr × Heap α)
    (hok : V5.make_matrix tgt T answer rows cols heap = Except.ok r) (hnn : r.1.get ≠ 0)
    (ha : 0 < T.align) (haM : T.align ≤ tgt.SIZE_MAX) (hp : 0 < tgt.ptr_size)
    (mem : Heap α)
    (hmem : ∀ i, i < rows →
      mem.ptr_at (r.1.get + i * tgt.ptr_size) = r.2.ptr_at (r.1.get + i * tgt.ptr_size))
    (v : α) :
    ∃ (flat : V5.Span) (f : V4.FlatRange),
      V5.matriz_span tgt mem r.1 rows cols = flat ∧
      V4.matriz_as_range tgt mem r.1 rows cols = Except.ok f ∧
      (∀ k, k < rows * cols →
        row_read tgt T (flat.assign T mem k v) r.1 (k / cols) (k % cols) = v ∧
        row_read tgt T (f.assign T mem k v) r.1 (k / cols) (k % cols) = v ∧
        V5.matriz_span tgt (flat.assign T mem k v) r.1 rows cols = flat ∧
        V4.matriz_as_range tgt (f.assign T mem k v) r.1 rows cols = Except.ok f) ∧
      (∀ i j, i < rows → j < cols →
        flat.index T (row_write tgt T mem r.1 i j v) (i * cols + j) = v ∧
        f.index T (row_write tgt T mem r.1 i j v) (i * cols + j) = v ∧
        V5.matriz_span tgt (row_write tgt T mem r.1 i j v) r.1 rows cols = flat ∧
        V4.matriz_as_range tgt (row_write tgt T mem r.1 i j v) r.1 rows cols = Except.ok f) ∧
      (1 ≤ T.size → ∀ k k', k < rows * cols → k' < rows * cols → k' ≠ k →
        flat.index T (flat.assign T mem k v) k' = flat.index T mem k' ∧
        row_read tgt T (flat.assign T mem k v) r.1 (k' / cols) (k' % cols)
          = row_read tgt T mem r.1 (k' / cols) (k' % cols)) := by
  obtain ⟨D, -, -, -, hviews⟩ :=
    V5.views_of_built tgt T answer rows cols heap r hok hnn ha haM hp
  obtain ⟨hspan, -, hrange, -, haddr⟩ := hviews mem hmem
  have hkeep : ∀ (a : Nat) (w : α), ∀ i, i < rows →
      (mem.store_elem a w).ptr_at (r.1.get + i * tgt.ptr_size)
        = r.2.ptr_at (r.1.get + i * tgt.ptr_size) := fun _ _ i hi => hmem i hi
  refine ⟨_, _, hspan, hrange, ?_, ?_, ?_⟩
  · intro k hk
    obtain ⟨-, hi, -, hdm⟩ := coord_of_index hk
    obtain ⟨hspan', -, hrange', -, haddr'⟩ := hviews _ (hkeep (D + k * T.size) v)
    have hread : row_read tgt T (mem.store_elem (D + k * T.size) v) r.1 (k / cols) (k % cols)
        = v := by
      unfold row_read
      rw [haddr' _ _ hi, hdm]
      unfold Heap.store_elem
      simp
    exact ⟨hread, hread, hspan', hrange'⟩
  · intro i j hi hj
    have hw : row_write tgt T mem r.1 i j v
        = mem.store_elem (D + (i * cols + j) * T.size) v := by
      unfold row_write
      rw [haddr i j hi]
    rw [hw]
    obtain ⟨hspan', -, hrange', -, -⟩ := hviews _ (hkeep (D + (i * cols + j) * T.size) v)
    have hread : (mem.store_elem (D + (i * cols + j) * T.size) v).elem_at
        (D + (i * cols + j) * T.size) = v := by
      unfold Heap.store_elem
      simp
    exact ⟨hread, hread, hspan', hrange'⟩
  · intro hs k k' hk hk' hne
    obtain ⟨-, hi', -, hdm'⟩ := coord_of_index hk'
    obtain ⟨-, -, -, -, haddr'⟩ := hviews _ (hkeep (D + k * T.size) v)
    have hneq : D + k' * T.size ≠ D + k * T.size := by
      have := mul_size_ne hs hne
      omega
    have hfr : (mem.store_elem (D + k * T.size) v).elem_at (D + k' * T.size)
        = mem.elem_at (D + k' * T.size) := by
      unfold Heap.store_elem
      simp [hneq]
    have hassign : V5.Span.assign ⟨D, rows * cols⟩ T mem k v
        = mem.store_elem (D + k * T.size) v := rfl
    rw [hassign]
    refine ⟨hfr, ?_⟩
    unfold row_read
    rw [haddr' _ _ hi', haddr _ _ hi', hdm']
    exact hfr

/-- C12, on the 3 x 2 `int` matrix placed at 4096, writing 7. -/
theorem writes_shared_by_views_witness :
    V5.make_matrix lp64 int32 (fun _ => 4096) 3 2 (Heap.empty (0 : Int))
      = Except.ok (⟨4096⟩, demo_heap) ∧
    (4096 : Nat) ≠ 0 ∧ 0 < int32.align ∧ int32.align ≤ lp64.SIZE_MAX ∧ 0 < lp64.ptr_size ∧
    ∃ (flat : V5.Span) (f : V4.FlatRange),
      V5.matriz_span lp64 demo_heap ⟨4096⟩ 3 2 = flat ∧
      V4.matriz_as_range lp64 demo_heap ⟨4096⟩ 3 2 = Except.ok f ∧
      (∀ k, k < 3 * 2 →
        row_read lp64 int32 (flat.assign int32 demo_heap k 7) ⟨4096⟩ (k / 2) (k % 2) = 7 ∧
        row_read lp64 int32 (f.assign int32 demo_heap k 7) ⟨4096⟩ (k / 2) (k % 2) = 7 ∧
        V5.matriz_span lp64 (flat.assign int32 demo_heap k 7) ⟨4096⟩ 3 2 = flat ∧
        V4.matriz_as_range lp64 (f.assign int32 demo_heap k 7) ⟨4096⟩ 3 2 = Except.ok f) ∧
      (∀ i j, i < 3 → j < 2 →
        flat.index int32 (row_write lp64 int32 demo_heap ⟨4096⟩ i j 7) (i * 2 + j) = 7 ∧
        f.index int32 (row_write lp64 int32 demo_heap ⟨4096⟩ i j 7) (i * 2 + j) = 7 ∧
        V5.matriz_span lp64 (row_write lp64 int32 demo_heap ⟨4096⟩ i j 7) ⟨4096⟩ 3 2 = flat ∧
        V4.matriz_as_range lp64 (row_write lp64 int32 demo_heap ⟨4096⟩ i j 7) ⟨4096⟩ 3 2
          = Except.ok f) ∧
      (1 ≤ int32.size → ∀ k k', k < 3 * 2 → k' < 3 * 2 → k' ≠ k →
        flat.index int32 (flat.assign int32 demo_heap k 7) k' = flat.index int32 demo_heap k' ∧
        row_read lp64 int32 (flat.assign int32 demo_heap k 7) ⟨4096⟩ (k' / 2) (k' % 2)
          = row_read lp64 int32 demo_heap ⟨4096⟩ (k' / 2) (k' % 2)) :=
  ⟨rfl, by decide, by decide, by decide, by decide,
    writes_shared_by_views lp64 int32 (fun _ => 4096) 3 2 (Heap.empty (0 : Int))
      (⟨4096⟩, demo_heap) rfl (by decide) (by decide) (by decide) (by decide)
      demo_heap (fun _ _ => rfl) 7⟩


/-- C13: on every matrix built by a successful `make_matrix<T> (rows, cols)` with
`sizeof (T) >= 1`, after the fill loop `table[i][j] = f (i, j)` (heap `h1`) the flat view
has `rows * cols` elements and lists `f` in row-major order; after the update loop
`x = g (x)` over the flat view (heap `h2`, `g` being the scaling by a constant in the
demo) the flat view lists `g (f (i, j))`, `table[i][j]` reads `g (f (i, j))`, and the
assertion loop of the demo runs to its end.  In the demo of v5, for any `malloc` that grants
the request: `make_matrix<int> (3, 2)` passes the layout computation with a 48-byte block,
the fill with `10 * i + j` makes the flat view read `[0, 1, 10, 11, 20, 21]`, the scaling by
2 makes it read `[0, 2, 20, 22, 40, 42]` with `table[1][0] == 20`, every value is an `int`,
and `main` returns 0 having printed these lists. -/
theorem demo_fill_flatten_scale {α : Type} [DecidableEq α] (tgt : Target) (T : ElemType)
    (answer : Nat → Nat) (rows cols : Nat) (heap : Heap α) (r : unique_ptr × Heap α)
    (hok : V5.make_matrix tgt T answer rows cols heap = Except.ok r) (hnn : r.1.get ≠ 0)
    (ha : 0 < T.align) (haM : T.align ≤ tgt.SIZE_MAX) (hp : 0 < tgt.ptr_size)
    (hs : 1 ≤ T.size) (f : Nat → Nat → α) (g : α → α) (h1 h2 : Heap α)
    (hh1 : h1 = V5.fill tgt T f r.1 rows cols r.2)
    (hh2 : h2 = (V5.matriz_span tgt h1 r.1 rows cols).for_each T g h1)
    (answer' : Nat → Nat) (heap' : Heap Int) (hgrant : answer' 48 ≠ 0) :
    ((V5.matriz_span tgt h1 r.1 rows cols).size = rows * cols ∧
      V5.print_flat (V5.matriz_span tgt h1 r.1 rows cols) T h1
        = (List.range (rows * cols)).map (fun k => f (k / cols) (k % cols)) ∧
      V5.print_flat (V5.matriz_cspan tgt h2 r.1 rows cols) T h2
        = (List.range (rows * cols)).map (fun k => g (f (k / cols) (k % cols))) ∧
      (∀ i j, i < rows → j < cols →
        row_read tgt T h1 r.1 i j = f i j ∧ row_read tgt T h2 r.1 i j = g (f i j)) ∧
      V5.check_loop tgt T (V5.matriz_span tgt h1 r.1 rows cols) r.1 cols h2
        (List.range (V5.matriz_span tgt h1 r.1 rows cols).size) = Except.ok ()) ∧
    (V5.layout lp64 int32 3 2 = Except.ok (some ⟨24, 6, 24, 0, 24, 48⟩) ∧
      (∀ v : Int, v ∈ [0, 1, 10, 11, 20, 21, 0, 2, 20, 22, 40, 42] →
        -(2 : Int) ^ 31 ≤ v ∧ v < 2 ^ 31) ∧
      ∃ r' heap2 heap3,
        V5.make_matrix lp64 int32 answer' 3 2 heap' = Except.ok r' ∧
        r'.1.get = answer' 48 ∧
        heap2 = V5.fill lp64 int32
          (fun i j => int_of_size (wrap lp64.SIZE_MAX (wrap lp64.SIZE_MAX (10 * i) + j)))
          r'.1 3 2 r'.2 ∧
        heap3 = (V5.matriz_span lp64 heap2 r'.1 3 2).for_each int32 (fun x => x * 2) heap2 ∧
        V5.print_rows lp64 int32 heap2 r'.1 3 2 = [0, 1, 10, 11, 20, 21] ∧
        V5.print_flat (V5.matriz_span lp64 heap2 r'.1 3 2) int32 heap2
          = [0, 1, 10, 11, 20, 21] ∧
        V5.print_flat (V5.matriz_cspan lp64 heap3 r'.1 3 2) int32 heap3
          = [0, 2, 20, 22, 40, 42] ∧
        V5.print_rows lp64 int32 heap3 r'.1 3 2 = [0, 2, 20, 22, 40, 42] ∧
        row_read lp64 int32 heap3 r'.1 1 0 = 20 ∧
        V5.main lp64 int32 answer' heap' = Except.ok (0, r'.1,
          [0, 1, 10, 11, 20, 21, 0, 2, 20, 22, 40, 42, 0, 2, 20, 22, 40, 42], heap3)) := by
  constructor
  · obtain ⟨D, hs1, hs2, hcell, hflat, hchk, -, -, -⟩ :=
      V5.demo_spec tgt T answer rows cols heap r hok hnn ha haM hp hs f g h1 h2 hh1 hh2
    rw [hs1, hs2]
    refine ⟨rfl, ?_, ?_, hcell, hchk⟩
    · exact List.map_congr_left (fun k hk => (hflat k (List.mem_range.mp hk)).1)
    · exact List.map_congr_left (fun k hk => (hflat k (List.mem_range.mp hk)).2)
  · refine ⟨by decide, by decide, ?_⟩
    have hlay : V5.layout lp64 int32 3 2 = Except.ok (some ⟨24, 6, 24, 0, 24, 48⟩) := by
      decide
    have hmk := V5.make_matrix_of_some lp64 int32 answer' 3 2 heap' _ hlay
    simp only [if_neg hgrant] at hmk
    obtain ⟨p1, f1, f2, p2, r10, -, -, hmain⟩ :=
      V5.main_of_demo answer' heap' _ hmk hgrant _ _ rfl rfl
    exact ⟨_, _, _, hmk, rfl, rfl, rfl, p1, f1, f2, p2, r10, hmain⟩

/-- C13, on the demo matrix placed at 4096 with the fill `10 * i + j` and the scaling by
2. -/
theorem demo_fill_flatten_scale_witness :
    V5.make_matrix lp64 int32 (fun _ => 4096) 3 2 (Heap.empty (0 : Int))
      = Except.ok (⟨4096⟩, demo_heap) ∧
    (4096 : Nat) ≠ 0 ∧ 0 < int32.align ∧ int32.align ≤ lp64.SIZE_MAX ∧ 0 < lp64.ptr_size ∧
    1 ≤ int32.size ∧ (fun _ => 4096) 48 ≠ 0 ∧
    ((V5.matriz_span lp64 demo_filled ⟨4096⟩ 3 2).size = 3 * 2 ∧
      V5.print_flat (V5.matriz_span lp64 demo_filled ⟨4096⟩ 3 2) int32 demo_filled
        = (List.range (3 * 2)).map (fun k =>
            int_of_size (wrap lp64.SIZE_MAX (wrap lp64.SIZE_MAX (10 * (k / 2)) + k % 2))) ∧
      V5.print_flat (V5.matriz_cspan lp64 demo_scaled ⟨4096⟩ 3 2) int32 demo_scaled
        = (List.range (3 * 2)).map (fun k =>
            int_of_size (wrap lp64.SIZE_MAX (wrap lp64.SIZE_MAX (10 * (k / 2)) + k % 2)) * 2) ∧
      (∀ i j, i < 3 → j < 2 →
        row_read lp64 int32 demo_filled ⟨4096⟩ i j
          = int_of_size (wrap lp64.SIZE_MAX (wrap lp64.SIZE_MAX (10 * i) + j)) ∧
        row_read lp64 int32 demo_scaled ⟨4096⟩ i j
          = int_of_size (wrap lp64.SIZE_MAX (wrap lp64.SIZE_MAX (10 * i) + j)) * 2) ∧
      V5.check_loop lp64 int32 (V5.matriz_span lp64 demo_filled ⟨4096⟩ 3 2) ⟨4096⟩ 2
        demo_scaled (List.range (V5.matriz_span lp64 demo_filled ⟨4096⟩ 3 2).size)
          = Except.ok ()) ∧
    (V5.layout lp64 int32 3 2 = Except.ok (some ⟨24, 6, 24, 0, 24, 48⟩) ∧
      (∀ v : Int, v ∈ [0, 1, 10, 11, 20, 21, 0, 2, 20, 22, 40, 42] →
        -(2 : Int) ^ 31 ≤ v ∧ v < 2 ^ 31) ∧
      ∃ r' heap2 heap3,
        V5.make_matrix lp64 int32 (fun _ => 4096) 3 2 (Heap.empty (0 : Int))
          = Except.ok r' ∧
        r'.1.get = (fun _ => 4096) 48 ∧
        heap2 = V5.fill lp64 int32
          (fun i j => int_of_size (wrap lp64.SIZE_MAX (wrap lp64.SIZE_MAX (10 * i) + j)))
          r'.1 3 2 r'.2 ∧
        heap3 = (V5.matriz_span lp64 heap2 r'.1 3 2).for_each int32 (fun x => x * 2) heap2 ∧
        V5.print_rows lp64 int32 heap2 r'.1 3 2 = [0, 1, 10, 11, 20, 21] ∧
        V5.print_flat (V5.matriz_span lp64 heap2 r'.1 3 2) int32 heap2
          = [0, 1, 10, 11, 20, 21] ∧
        V5.print_flat (V5.matriz_cspan lp64 heap3 r'.1 3 2) int32 heap3
          = [0, 2, 20, 22, 40, 42] ∧
        V5.print_rows lp64 int32 heap3 r'.1 3 2 = [0, 2, 20, 22, 40, 42] ∧
        row_read lp64 int32 heap3 r'.1 1 0 = 20 ∧
        V5.main lp64 int32 (fun _ => 4096) (Heap.empty (0 : Int)) = Except.ok (0, r'.1,
          [0, 1, 10, 11, 20, 21, 0, 2, 20, 22, 40, 42, 0, 2, 20, 22, 40, 42], heap3)) :=
  ⟨rfl, by decide, by decide, by decide, by decide, by decide, by decide,
    demo_fill_flatten_scale lp64 int32 (fun _ => 4096) 3 2 (Heap.empty (0 : Int))
      (⟨4096⟩, demo_heap) rfl (by decide) (by decide) (by decide) (by decide) (by decide)
      (fun i j => int_of_size (wrap lp64.SIZE_MAX (wrap lp64.SIZE_MAX (10 * i) + j)))
      (fun x => x * 2) demo_filled demo_scaled rfl rfl
      (fun _ => 4096) (Heap.empty (0 : Int)) (by decide)⟩


/-! ## The handle -/

/-- The block a successful `make_matrix` has added to the live blocks. -/
theorem V5.make_matrix_live {α : Type} (tgt : Target) (T : ElemType) (answer : Nat → Nat)
    (rows cols : Nat) (heap : Heap α) (r : unique_ptr × Heap α)
    (hok : V5.make_matrix tgt T answer rows cols heap = Except.ok r) (hnn : r.1.get ≠ 0)
    (ha : 0 < T.align) (haM : T.align ≤ tgt.SIZE_MAX) :
    ∃ L : Layout, V5.layout tgt T rows cols = Except.ok (some L) ∧
      r.2.live = (r.1.get, L.total) :: heap.live ∧
      r.2.requests = heap.requests ++ [L.total] := by
  obtain ⟨L, hlay, -, -, -, -, -, -, -, -, -, -, -, hans, hheap⟩ :=
    V5.make_matrix_success tgt T answer rows cols heap r hok hnn ha haM
  refine ⟨L, hlay, ?_, ?_⟩
  · rw [hheap, fill_rows_live]
    simp [Heap.malloc, hans, hnn]
  · rw [hheap, fill_rows_requests]
    rfl

theorem free_head_block {α : Type} (mem : Heap α) (p t : Nat) (rest : List (Nat × Nat))
    (hp : p ≠ 0) (hlive : mem.live = (p, t) :: rest) :
    mem.free p = Except.ok ⟨mem.requests, rest, mem.ptr_at, mem.elem_at⟩ := by
  unfold Heap.free
  rw [if_neg hp, hlive]
  simp [remove_block]

theorem release_head_block {α : Type} (mem : Heap α) (h : unique_ptr) (t : Nat)
    (rest : List (Nat × Nat)) (hp : h.get ≠ 0) (hlive : mem.live = (h.get, t) :: rest) :
    h.release mem = Except.ok (⟨0⟩, ⟨mem.requests, rest, mem.ptr_at, mem.elem_at⟩) := by
  unfold unique_ptr.release
  rw [if_neg hp, free_head_block mem h.get t rest hp hlive]

theorem release_empty {α : Type} (mem : Heap α) :
    (⟨0⟩ : unique_ptr).release mem = Except.ok (⟨0⟩, mem) := by
  unfold unique_ptr.release
  rw [if_pos rfl]

/-- C16: take the handle of a successful `make_matrix` and any later memory `mem` with the
same live blocks (the loops of the demo keep them).  The block of `make_matrix` is the
first live block; `release ()` at the end of the scope frees it, leaving the live blocks
that were there before the call and nothing else changed, and empties the handle; a second
`release ()` changes nothing, where a second `free` of the address would be a fault when
no older block has it; a moved-from handle is empty and releases nothing, the handle moved
to releases the block once.  In the demo of v5, when `malloc` grants the request, `main`
requests one block and the release of `mat` at the closing brace leaves the live blocks as
they were before `main`. -/
theorem handle_releases_once {α : Type} (tgt : Target) (T : ElemType) (answer : Nat → Nat)
    (rows cols : Nat) (heap : Heap α) (r : unique_ptr × Heap α)
    (hok : V5.make_matrix tgt T answer rows cols heap = Except.ok r) (hnn : r.1.get ≠ 0)
    (ha : 0 < T.align) (haM : T.align ≤ tgt.SIZE_MAX)
    (mem : Heap α) (hlive : mem.live = r.2.live)
    (answer' : Nat → Nat) (heap' : Heap Int) (hgrant : answer' 48 ≠ 0) :
    (∃ (L : Layout) (mem' : Heap α),
      V5.layout tgt T rows cols = Except.ok (some L) ∧
      r.2.live = (r.1.get, L.total) :: heap.live ∧
      r.2.requests = heap.requests ++ [L.total] ∧
      r.1.release mem = Except.ok (⟨0⟩, mem') ∧
      mem'.live = heap.live ∧ mem'.requests = mem.requests ∧
      mem'.ptr_at = mem.ptr_at ∧ mem'.elem_at = mem.elem_at ∧
      (⟨0⟩ : unique_ptr).release mem' = Except.ok (⟨0⟩, mem') ∧
      ((∀ b, b ∈ heap.live → b.1 ≠ r.1.get) →
        mem'.free r.1.get = Except.error Fault.invalid_free) ∧
      r.1.move = (r.1, ⟨0⟩) ∧
      r.1.move.2.release mem = Except.ok (⟨0⟩, mem) ∧
      r.1.move.1.release mem = Except.ok (⟨0⟩, mem')) ∧
    (∃ (mat : unique_ptr) (out : List Int) (heap3 heap4 : Heap Int),
      V5.main lp64 int32 answer' heap' = Except.ok (0, mat, out, heap3) ∧
      heap3.live = (mat.get, 48) :: heap'.live ∧
      heap3.requests = heap'.requests ++ [48] ∧
      mat.release heap3 = Except.ok (⟨0⟩, heap4) ∧
      heap4.live = heap'.live ∧ heap4.requests = heap'.requests ++ [48]) := by
  constructor
  · obtain ⟨L, hlay, hl, hr⟩ :=
      V5.make_matrix_live tgt T answer rows cols heap r hok hnn ha haM
    have hlive' : mem.live = (r.1.get, L.total) :: heap.live := hlive.trans hl
    have hrel := release_head_block mem r.1 L.total heap.live hnn hlive'
    refine ⟨L, _, hlay, hl, hr, hrel, rfl, rfl, rfl, rfl, release_empty _, ?_, rfl,
      release_empty mem, hrel⟩
    intro hfresh
    unfold Heap.free
    rw [if_neg hnn]
    have hany : heap.live.any (fun b => decide (b.1 = r.1.get)) = false := by
      rw [List.any_eq_false]
      intro b hb
      simpa using hfresh b hb
    simp [hany]
  · have hlay : V5.layout lp64 int32 3 2 = Except.ok (some ⟨24, 6, 24, 0, 24, 48⟩) := by
      decide
    have hmk := V5.make_matrix_of_some lp64 int32 answer' 3 2 heap' _ hlay
    simp only [if_neg hgrant] at hmk
    obtain ⟨-, -, -, -, -, h3l, h3r, hmain⟩ :=
      V5.main_of_demo answer' heap' _ hmk hgrant _ _ rfl rfl
    obtain ⟨L, hlay', hl, hr⟩ :=
      V5.make_matrix_live lp64 int32 answer' 3 2 heap' _ hmk hgrant (by decide) (by decide)
    rw [hlay] at hlay'
    have hL := Option.some.inj (Except.ok.inj hlay')
    rw [← hL] at hl hr
    have hrel := release_head_block _ (⟨answer' 48⟩ : unique_ptr) 48 heap'.live hgrant
      (h3l.trans hl)
    exact ⟨_, _, _, _, hmain, h3l.trans hl, h3r.trans hr, hrel, rfl, h3r.trans hr⟩

/-- C16, on the demo matrix placed at 4096, released after the loops of the demo. -/
theorem handle_releases_once_witness :
    V5.make_matrix lp64 int32 (fun _ => 4096) 3 2 (Heap.empty (0 : Int))
      = Except.ok (⟨4096⟩, demo_heap) ∧
    (4096 : Nat) ≠ 0 ∧ 0 < int32.align ∧ int32.align ≤ lp64.SIZE_MAX ∧
    demo_scaled.live = demo_heap.live ∧ (fun _ => 4096) 48 ≠ 0 ∧
    (∃ (L : Layout) (mem' : Heap Int),
      V5.layout lp64 int32 3 2 = Except.ok (some L) ∧
      demo_heap.live = (4096, L.total) :: (Heap.empty (0 : Int)).live ∧
      demo_heap.requests = (Heap.empty (0 : Int)).requests ++ [L.total] ∧
      (⟨4096⟩ : unique_ptr).release demo_scaled = Except.ok (⟨0⟩, mem') ∧
      mem'.live = (Heap.empty (0 : Int)).live ∧ mem'.requests = demo_scaled.requests ∧
      mem'.ptr_at = demo_scaled.ptr_at ∧ mem'.elem_at = demo_scaled.elem_at ∧
      (⟨0⟩ : unique_ptr).release mem' = Except.ok (⟨0⟩, mem') ∧
      ((∀ b, b ∈ (Heap.empty (0 : Int)).live → b.1 ≠ 4096) →
        mem'.free 4096 = Except.error Fault.invalid_free) ∧
      (⟨4096⟩ : unique_ptr).move = (⟨4096⟩, ⟨0⟩) ∧
      (⟨4096⟩ : unique_ptr).move.2.release demo_scaled = Except.ok (⟨0⟩, demo_scaled) ∧
      (⟨4096⟩ : unique_ptr).move.1.release demo_scaled = Except.ok (⟨0⟩, mem')) ∧
    (∃ (mat : unique_ptr) (out : List Int) (heap3 heap4 : Heap Int),
      V5.main lp64 int32 (fun _ => 4096) (Heap.empty (0 : Int))
        = Except.ok (0, mat, out, heap3) ∧
      heap3.live = (mat.get, 48) :: (Heap.empty (0 : Int)).live ∧
      heap3.requests = (Heap.empty (0 : Int)).requests ++ [48] ∧
      mat.release heap3 = Except.ok (⟨0⟩, heap4) ∧
      heap4.live = (Heap.empty (0 : Int)).live ∧
      heap4.requests = (Heap.empty (0 : Int)).requests ++ [48]) :=
  ⟨rfl, by decide, by decide, by decide, by decide, by decide,
    handle_releases_once lp64 int32 (fun _ => 4096) 3 2 (Heap.empty (0 : Int))
      (⟨4096⟩, demo_heap) rfl (by decide) (by decide) (by decide)
      demo_scaled (by decide) (fun _ => 4096) (Heap.empty (0 : Int)) (by decide)⟩

/-- C17 fails as stated: on a null handle `matriz_as_range` and `matriz_as_crange` run to
their end and return a range (null, of size 0), `matriz_span` and `matriz_cspan` return the
empty span, and the loops of the demo run over that view to their end: no error is
reported. -/
theorem null_handle_view_is_no_error :
    V4.matriz_as_range lp64 (Heap.empty (0 : Int)) ⟨0⟩ 4 3 = Except.ok ⟨0, 0⟩ ∧
    V4.matriz_as_crange lp64 (Heap.empty (0 : Int)) ⟨0⟩ 4 3 = Except.ok ⟨0, 0⟩ ∧
    V5.matriz_span lp64 (Heap.empty (0 : Int)) ⟨0⟩ 3 2 = ⟨0, 0⟩ ∧
    V5.matriz_cspan lp64 (Heap.empty (0 : Int)) ⟨0⟩ 3 2 = ⟨0, 0⟩ ∧
    V5.print_flat (V5.matriz_cspan lp64 (Heap.empty (0 : Int)) ⟨0⟩ 3 2) int32
      (Heap.empty (0 : Int)) = [] ∧
    V5.check_loop lp64 int32 (V5.matriz_span lp64 (Heap.empty (0 : Int)) ⟨0⟩ 3 2) ⟨0⟩ 2
      (Heap.empty (0 : Int))
      (List.range (V5.matriz_span lp64 (Heap.empty (0 : Int)) ⟨0⟩ 3 2).size)
        = Except.ok () := by
  decide

/-- C17, amended: applied to a null handle, for every `r`, `c` and every memory, the
flat-view accessors `matriz_as_range`, `matriz_as_crange`, `matriz_span` and `matriz_cspan`
do not read the row table and return, as an ordinary result, the empty view: null first
element and size 0, a `FlatRange` that tests `false`. -/
theorem null_handle_gives_empty_view {α : Type} (tgt : Target) (heap : Heap α) (r c : Nat) :
    V4.matriz_as_range tgt heap ⟨0⟩ r c = Except.ok ⟨0, 0⟩ ∧
    V4.matriz_as_crange tgt heap ⟨0⟩ r c = Except.ok ⟨0, 0⟩ ∧
    V5.matriz_span tgt heap ⟨0⟩ r c = ⟨0, 0⟩ ∧
    V5.matriz_cspan tgt heap ⟨0⟩ r c = ⟨0, 0⟩ ∧
    V4.FlatRange.operator_bool ⟨0, 0⟩ = false ∧
    V4.FlatRange.size ⟨0, 0⟩ = 0 ∧
    (⟨0, 0⟩ : V5.Span).size = 0 ∧ (⟨0, 0⟩ : V5.Span).data = 0 := by
  refine ⟨?_, ?_, ?_, ?_, by decide, rfl, rfl, rfl⟩
  · unfold V4.matriz_as_range
    rw [if_pos rfl]
  · unfold V4.matriz_as_crange
    rw [if_pos rfl]
  · unfold V5.matriz_span
    rw [if_neg (fun h => h rfl)]
  · unfold V5.matriz_cspan
    rw [if_neg (fun h => h rfl)]


end MatrixAlloc
